import Mathlib

/-!
Shallow embedding of the scenario state-and-timing engine of the
flight-scenario-simulator repository, together with proofs of the claimed
properties.

Numbers are modelled by `ℚ` (the program uses JavaScript numbers; the claims
under scrutiny are exact arithmetic identities, not rounding statements).
Database rows become entries of lists inside a `Store` structure; supabase
`insert` appends, `update ... eq` maps over the list, and `.single()` is
modelled by `strictSingle` (error unless exactly one row matches) or, where
the source tolerates the PGRST116 "no/many rows" error code, by
`singleOrNone`.  Fresh row ids are drawn from a counter `nextId`.  The
language-model call `generateAnthropicResponse` is an oracle `respond`
indexed by the number of calls made so far, and `JSON.parse` success is an
oracle predicate `jsonOk`; theorems quantify over these oracles.
-/

namespace FlightSim

abbrev Err := String

/-- Exactly-one-row semantics of supabase `.single()` where the caller does
not tolerate the PGRST116 error code. -/
def strictSingle (p : α → Bool) (l : List α) : Except Err α :=
  match l.filter p with
  | [x] => .ok x
  | _ => .error "PGRST116"

/-- `.single()` where the caller tolerates PGRST116 (no rows, or more than
one row) and treats the data as null. -/
def singleOrNone (p : α → Bool) (l : List α) : Option α :=
  match l.filter p with
  | [x] => some x
  | _ => none

/-- Supabase `update(...).eq(...)`: rewrite every row matching `p`. -/
def updateWhere (p : α → Bool) (f : α → α) (l : List α) : List α :=
  l.map (fun x => if p x then f x else x)

/-- Aircraft parameter row (`AircraftParameters` in parameterSimulation.ts). -/
structure AircraftParameters where
  scenario_id : Nat
  latitude : ℚ
  longitude : ℚ
  altitude : ℚ
  heading : ℚ
  speed : ℚ
  vertical_speed : ℚ
  fuel : ℚ
  fuel_burn_rate : ℚ
deriving Repr, DecidableEq

/-- The pure computation inside `simulateContinuousChanges`
(parameterSimulation.ts lines 241-273): fuel burn, flat-earth position
advance, and altitude change, merged into the parameter record by the
PATCH `updateParameters` call.  `cosDeg h` and `sinDeg h` stand for
`Math.cos(h * Math.PI / 180)` and `Math.sin(h * Math.PI / 180)`; the
theorems hold for every interpretation of these two functions.  The
JavaScript truthiness tests `if (currentParams.speed)` and
`if (currentParams.vertical_speed)` become inequality with zero. -/
def simulateStep (cosDeg sinDeg : ℚ → ℚ) (p : AircraftParameters)
    (elapsedSeconds : ℚ) : AircraftParameters :=
  let fuelBurnPerSecond := p.fuel_burn_rate / 60
  let fuelBurned := fuelBurnPerSecond * elapsedSeconds
  let newFuel := max 0 (p.fuel - fuelBurned)
  let newLatitude :=
    if p.speed ≠ 0 then
      p.latitude + cosDeg p.heading * (p.speed / 3600 / 60) * elapsedSeconds
    else p.latitude
  let newLongitude :=
    if p.speed ≠ 0 then
      p.longitude + sinDeg p.heading * (p.speed / 3600 / 60) * elapsedSeconds
    else p.longitude
  let newAltitude :=
    if p.vertical_speed ≠ 0 then
      p.altitude + (p.vertical_speed / 60) * elapsedSeconds
    else p.altitude
  { p with
    fuel := newFuel
    latitude := newLatitude
    longitude := newLongitude
    altitude := newAltitude }

/-- The default parameter record that `simulateContinuousChanges`
constructs when `getCurrentParameters` returns null
(parameterSimulation.ts lines 207-239). -/
def defaultParameters (scenarioId : Nat) : AircraftParameters where
  scenario_id := scenarioId
  altitude := 30000
  heading := 90
  speed := 450
  vertical_speed := 0
  fuel := 15000
  fuel_burn_rate := 50
  latitude := 40.7128
  longitude := -74.0060

/-- `simulateContinuousChanges(scenarioId, elapsedSeconds)` from
parameterSimulation.ts.  `current` is the record returned by
`getCurrentParameters` (`none` models the no-prior-record case).  The
returned list is the sequence of records persisted through
`updateParameters`, in call order: when no record exists the function
first persists the invented defaults (a failure of that persist is caught
and ignored in the source, so it cannot abort the call) and then the
simulated record; otherwise only the simulated record. -/
def simulateContinuousChanges (cosDeg sinDeg : ℚ → ℚ) (scenarioId : Nat)
    (current : Option AircraftParameters) (elapsedSeconds : ℚ) :
    Except Err (AircraftParameters × List AircraftParameters) :=
  match current with
  | some p =>
      let updated := simulateStep cosDeg sinDeg p elapsedSeconds
      .ok (updated, [updated])
  | none =>
      let seeded := defaultParameters scenarioId
      let updated := simulateStep cosDeg sinDeg seeded elapsedSeconds
      .ok (updated, [seeded, updated])

/-- Scenario row (fields consumed by the modelled engine functions). -/
structure ScenarioRec where
  id : Nat
  title : String
  description : String
  initial_fuel : ℚ
deriving Repr, DecidableEq

/-- Decision row. -/
structure Decision where
  id : Nat
  scenario_id : Nat
  title : String
  description : String
  time_limit : Option ℚ
  is_urgent : Bool
  is_active : Bool
  trigger_condition : String
deriving Repr, DecidableEq

/-- DecisionOption row. -/
structure DecisionOption where
  id : Nat
  decision_id : Nat
  scenario_id : Nat
  text : String
  consequences : String
  is_recommended : Bool
deriving Repr, DecidableEq

/-- The `parameter_changes` payload carried by a DecisionNode
(decisionTree.ts interface DecisionNode). -/
structure ParamChange where
  altitude : Option ℚ
  heading : Option ℚ
  fuel_burn_rate : Option ℚ
  weather : Option String
deriving Repr, DecidableEq

def ParamChange.empty : ParamChange :=
  { altitude := none, heading := none, fuel_burn_rate := none, weather := none }

/-- DecisionNode row (decisionTree.ts interface DecisionNode). -/
structure DecisionNode where
  id : Nat
  decision_id : Option Nat
  scenario_id : Nat
  parent_node_id : Option Nat
  option_id : Option Nat
  is_active : Bool
  trigger_time : Option ℚ
  communications_to_trigger : List Nat
  parameter_changes : ParamChange
deriving Repr, DecidableEq

/-- DecisionResponse row: append-only log of what was chosen. -/
structure DecisionResponse where
  scenario_id : Nat
  decision_id : Nat
  option_id : Nat
deriving Repr, DecidableEq

/-- communications_queue row. -/
structure CommQueueItem where
  id : Nat
  scenario_id : Nat
  type : String
  sender : String
  message : String
  is_important : Bool
  is_sent : Bool
  trigger_condition : String
  trigger_time : Option ℚ
deriving Repr, DecidableEq

/-- communications history row (append-only). -/
structure Communication where
  scenario_id : Nat
  type : String
  sender : String
  message : String
  is_important : Bool
deriving Repr, DecidableEq

/-- The history entry written when a queue item is delivered: the source
copies exactly these fields from the queue row. -/
def CommQueueItem.toHistory (c : CommQueueItem) : Communication :=
  { scenario_id := c.scenario_id, type := c.type, sender := c.sender,
    message := c.message, is_important := c.is_important }

/-- scenario_states snapshot row (decisionImpact.ts interface
ScenarioState). -/
structure ScenarioState where
  scenario_id : Nat
  current_safety_score : ℚ
  current_efficiency_score : ℚ
  current_passenger_comfort_score : ℚ
  time_deviation : ℚ
  fuel_remaining : ℚ
deriving Repr, DecidableEq

/-- decision_impacts row (decisionImpact.ts interface DecisionImpact). -/
structure DecisionImpact where
  scenario_id : Nat
  decision_id : Nat
  option_id : Nat
  safety_impact : ℚ
  efficiency_impact : ℚ
  passenger_comfort_impact : ℚ
  time_impact : ℚ
  fuel_impact : ℚ
  description : String
deriving Repr, DecidableEq

/-- active_scenarios timing row. -/
structure ScenarioTiming where
  scenario_id : Nat
  is_paused : Bool
  elapsed_seconds : ℚ
deriving Repr, DecidableEq

/-- weather_conditions row (opaque blob). -/
structure WeatherRow where
  scenario_id : Nat
  weather_data : String
deriving Repr, DecidableEq

/-- The relational store behind the repository interface.  Lists are kept
in insertion (creation-timestamp) order; `nextId` generates fresh row ids;
`llmCalls` counts calls of the language-model interface. -/
structure Store where
  scenarios : List ScenarioRec
  decisions : List Decision
  decision_options : List DecisionOption
  decision_nodes : List DecisionNode
  decision_responses : List DecisionResponse
  communications_queue : List CommQueueItem
  communications : List Communication
  scenario_states : List ScenarioState
  decision_impacts : List DecisionImpact
  aircraft_positions : List AircraftParameters
  weather_conditions : List WeatherRow
  timings : List ScenarioTiming
  nextId : Nat
  llmCalls : Nat
deriving Repr, DecidableEq

/-- A communication in the structured language-model response parsed by
`generateNextNode`. -/
structure CommSpec where
  type : String
  sender : String
  message : String
  is_important : Bool
deriving Repr, DecidableEq

/-- An option of the `next_decision` in the parsed response. -/
structure OptionSpec where
  text : String
  consequences : String
  is_recommended : Bool
deriving Repr, DecidableEq

/-- The `next_decision` object in the parsed response. -/
structure NextDecisionSpec where
  title : String
  description : String
  time_limit : Option ℚ
  is_urgent : Bool
  options : List OptionSpec
  trigger_time : Option ℚ
deriving Repr, DecidableEq

/-- The structured response parsed by `generateNextNode`. -/
structure NextState where
  parameter_changes : Option ParamChange
  communications : List CommSpec
  next_decision : Option NextDecisionSpec
deriving Repr, DecidableEq

/-- The numeric fields read off the parsed response by
`calculateDecisionImpact`. -/
structure ImpactFields where
  safety_impact : ℚ
  efficiency_impact : ℚ
  passenger_comfort_impact : ℚ
  time_impact : ℚ
  fuel_impact : ℚ
  description : String
deriving Repr, DecidableEq

/-- Oracles for the opaque host facilities: `respond n` is the text the
language model returns on its `n`-th call, `jsonOk` is JSON.parse
success, and the two decoders read the structured fields out of a string
that `jsonOk` accepted. -/
structure LlmEnv where
  respond : Nat → String
  jsonOk : String → Bool
  decodeNext : String → NextState
  decodeImpact : String → ImpactFields

def openBraceChar : Char := Char.ofNat 123

def closeBraceChar : Char := Char.ofNat 125

/-- The greedy brace regex used by every `extractJsonFromResponse` copy:
it matches from the first opening brace to the last closing brace. -/
def braceMatch (s : String) : Option String :=
  let cs := s.toList
  match cs.findIdx? (· == openBraceChar) with
  | none => none
  | some i =>
    match cs.reverse.findIdx? (· == closeBraceChar) with
    | none => none
    | some rj =>
      let j := cs.length - 1 - rj
      if i ≤ j then some (String.mk ((cs.drop i).take (j - i + 1))) else none

/-- `extractJsonFromResponse` (the two-stage copy in decisionImpact.ts,
decisionTree.ts and parameterSimulation.ts): try the whole response, then
the greedy brace match; otherwise fail. -/
def extractJsonFromResponse (jsonOk : String → Bool) (response : String) :
    Except Err String :=
  if jsonOk response then .ok response
  else
    match braceMatch response with
    | some m =>
        if jsonOk m then .ok m
        else .error "Failed to parse JSON from response"
    | none => .error "No valid JSON found in response"

/-- The newest scenario_states snapshot for a scenario
(`order by created_at desc limit 1`, PGRST116 tolerated). -/
def latestState (s : Store) (sid : Nat) : Option ScenarioState :=
  (s.scenario_states.filter (fun st => st.scenario_id == sid)).getLast?

/-- The JavaScript fallback `aircraftData?.fuel || scenarioData?.initial_fuel
|| 0` (`||` skips 0 as falsy). -/
def initialFuelOf (aircraft : AircraftParameters) (scen : ScenarioRec) : ℚ :=
  if aircraft.fuel ≠ 0 then aircraft.fuel
  else if scen.initial_fuel ≠ 0 then scen.initial_fuel
  else 0

/-- The current state, or the freshly constructed initial one when no
snapshot exists — both `calculateDecisionImpact` and `updateScenarioState`
contain this construction verbatim. -/
def currentOrInitialState (s : Store) (sid : Nat)
    (aircraft : AircraftParameters) (scen : ScenarioRec) : ScenarioState :=
  match latestState s sid with
  | some st => st
  | none =>
      { scenario_id := sid
        current_safety_score := 100
        current_efficiency_score := 100
        current_passenger_comfort_score := 100
        time_deviation := 0
        fuel_remaining := initialFuelOf aircraft scen }

/-- `Math.max(0, Math.min(100, x))` in `updateScenarioState`. -/
def clampScore (x : ℚ) : ℚ := max 0 (min 100 x)

/-- `calculateDecisionImpact(scenarioId, decisionId, optionId)` from
decisionImpact.ts.  Performs only reads, one language-model call, and the
JSON extraction; returns the impact record without persisting anything.
The store is threaded so that the call counter reflects the one model
call even on a parse failure. -/
def calculateDecisionImpact (env : LlmEnv) (sid did oid : Nat) (s : Store) :
    Except Err DecisionImpact × Store :=
  match strictSingle (fun d => d.id == did) s.decisions with
  | .error e => (.error e, s)
  | .ok _decision =>
    let opts := s.decision_options.filter (fun o => o.decision_id == did)
    match opts.find? (fun o => o.id == oid) with
    | none => (.error "Selected option not found", s)
    | some _selectedOption =>
      let _stateData := latestState s sid
      match strictSingle (fun a => a.scenario_id == sid) s.aircraft_positions with
      | .error e => (.error e, s)
      | .ok aircraft =>
        match strictSingle (fun sc => sc.id == sid) s.scenarios with
        | .error e => (.error e, s)
        | .ok scen =>
          let _currentState := currentOrInitialState s sid aircraft scen
          let response := env.respond s.llmCalls
          let s1 := { s with llmCalls := s.llmCalls + 1 }
          match extractJsonFromResponse env.jsonOk response with
          | .error e => (.error e, s1)
          | .ok str =>
            let f := env.decodeImpact str
            (.ok { scenario_id := sid, decision_id := did, option_id := oid,
                   safety_impact := f.safety_impact,
                   efficiency_impact := f.efficiency_impact,
                   passenger_comfort_impact := f.passenger_comfort_impact,
                   time_impact := f.time_impact,
                   fuel_impact := f.fuel_impact,
                   description := f.description }, s1)

/-- `saveDecisionImpact`: one insert into decision_impacts. -/
def saveDecisionImpact (impact : DecisionImpact) (s : Store) : Store :=
  { s with decision_impacts := s.decision_impacts ++ [impact] }

/-- `updateScenarioState(scenarioId, impact)` from decisionImpact.ts:
clamp-fold the impact into the newest snapshot (or the initial one) and
insert the result as a new snapshot. -/
def updateScenarioState (sid : Nat) (impact : DecisionImpact) (s : Store) :
    Except Err (ScenarioState × Store) :=
  match strictSingle (fun a => a.scenario_id == sid) s.aircraft_positions with
  | .error e => .error e
  | .ok aircraft =>
    match strictSingle (fun sc => sc.id == sid) s.scenarios with
    | .error e => .error e
    | .ok scen =>
      let currentState := currentOrInitialState s sid aircraft scen
      let newState : ScenarioState :=
        { scenario_id := sid
          current_safety_score :=
            clampScore (currentState.current_safety_score + impact.safety_impact)
          current_efficiency_score :=
            clampScore (currentState.current_efficiency_score + impact.efficiency_impact)
          current_passenger_comfort_score :=
            clampScore (currentState.current_passenger_comfort_score +
              impact.passenger_comfort_impact)
          time_deviation := currentState.time_deviation + impact.time_impact
          fuel_remaining := currentState.fuel_remaining - impact.fuel_impact }
      .ok (newState, { s with scenario_states := s.scenario_states ++ [newState] })

/-- `processDecisionImpact` from decisionImpact.ts: calculate, save the
impact, fold it into a new snapshot.  The threaded store records exactly
the writes committed before a failure. -/
def processDecisionImpact (env : LlmEnv) (sid did oid : Nat) (s : Store) :
    Except Err (DecisionImpact × ScenarioState) × Store :=
  match calculateDecisionImpact env sid did oid s with
  | (.error e, s1) => (.error e, s1)
  | (.ok impact, s1) =>
    let s2 := saveDecisionImpact impact s1
    match updateScenarioState sid impact s2 with
    | .error e => (.error e, s2)
    | .ok (newState, s3) => (.ok (impact, newState), s3)

/-- The aircraft-parameter update block that both `activateDecisionNode`
and `generateNextNode` contain verbatim: if any of altitude, heading or
fuel burn rate is present in the payload, update those fields of the
scenario's aircraft_positions row. -/
def applyAircraftChanges (changes : ParamChange) (sid : Nat) (s : Store) : Store :=
  if changes.altitude.isSome || changes.heading.isSome ||
      changes.fuel_burn_rate.isSome then
    let patch := fun (a : AircraftParameters) =>
      { a with
        altitude := changes.altitude.getD a.altitude
        heading := changes.heading.getD a.heading
        fuel_burn_rate := changes.fuel_burn_rate.getD a.fuel_burn_rate }
    let rows := updateWhere (fun a => a.scenario_id == sid) patch s.aircraft_positions
    { s with aircraft_positions := rows }
  else s

/-- The weather update block of `activateDecisionNode` (absent from the
copy in `generateNextNode`). -/
def applyWeatherChange (changes : ParamChange) (sid : Nat) (s : Store) : Store :=
  match changes.weather with
  | some w =>
      let rows := updateWhere (fun (r : WeatherRow) => r.scenario_id == sid)
        (fun r => { r with weather_data := w }) s.weather_conditions
      { s with weather_conditions := rows }
  | none => s

/-- One iteration of the communication-firing loop that decisionTree.ts
contains twice, verbatim (inside `activateDecisionNode` and at the end of
`generateNextNode`): unconditionally mark the queue row sent, re-read it
with `.single()`, and, when that read yields exactly one row, copy it into
the communications history.  Note that neither the node's `is_active` flag
nor the queue row's previous `is_sent` value is consulted. -/
def fireComm (s : Store) (commId : Nat) : Store :=
  let queue1 := updateWhere (fun (c : CommQueueItem) => c.id == commId)
    (fun c => { c with is_sent := true }) s.communications_queue
  let s1 := { s with communications_queue := queue1 }
  match s1.communications_queue.filter (fun c => c.id == commId) with
  | [c] => { s1 with communications := s1.communications ++ [c.toHistory] }
  | _ => s1

/-- `activateDecisionNode(nodeId)` from decisionTree.ts: fetch the node
(strict single), activate its decision if it has one, mark the node
active, fire each attached communication, then apply the stored parameter
changes (aircraft fields, then weather). -/
def activateDecisionNode (nodeId : Nat) (s : Store) : Except Err Store :=
  match strictSingle (fun n => n.id == nodeId) s.decision_nodes with
  | .error e => .error e
  | .ok node =>
    let s1 := match node.decision_id with
      | some did =>
          let ds := updateWhere (fun (d : Decision) => d.id == did)
            (fun d => { d with is_active := true }) s.decisions
          { s with decisions := ds }
      | none => s
    let nodes2 := updateWhere (fun (n : DecisionNode) => n.id == nodeId)
      (fun n => { n with is_active := true }) s1.decision_nodes
    let s2 := { s1 with decision_nodes := nodes2 }
    let s3 := node.communications_to_trigger.foldl fireComm s2
    let s4 := applyAircraftChanges node.parameter_changes node.scenario_id s3
    .ok (applyWeatherChange node.parameter_changes node.scenario_id s4)

/-- The queue row inserted for one generated communication
(`generateNextNode`, communications loop): `is_sent` starts false and the
row carries no trigger_time. -/
def mkQueueItem (sid : Nat) (c : CommSpec) (rowId : Nat) : CommQueueItem :=
  { id := rowId, scenario_id := sid, type := c.type, sender := c.sender,
    message := c.message, is_important := c.is_important, is_sent := false,
    trigger_condition := "Generated from decision", trigger_time := none }

/-- The communications-insertion loop of `generateNextNode`: insert each
generated communication into the queue and collect the fresh row ids. -/
def insertComms (sid : Nat) : List CommSpec → Store → Store × List Nat
  | [], s => (s, [])
  | c :: rest, s =>
    let item := mkQueueItem sid c s.nextId
    let s1 := { s with
      communications_queue := s.communications_queue ++ [item]
      nextId := s.nextId + 1 }
    let (s2, ids) := insertComms sid rest s1
    (s2, item.id :: ids)

/-- The bulk insert of the generated next decision's options. -/
def insertOptions (sid did : Nat) : List OptionSpec → Store → Store
  | [], s => s
  | o :: rest, s =>
    let row : DecisionOption :=
      { id := s.nextId, decision_id := did, scenario_id := sid,
        text := o.text, consequences := o.consequences,
        is_recommended := o.is_recommended }
    insertOptions sid did rest
      { s with decision_options := s.decision_options ++ [row]
               nextId := s.nextId + 1 }

/-- Insertion of the generated next decision (created inactive) together
with its options. -/
def insertNextDecision (sid : Nat) (nd : NextDecisionSpec) (s : Store) :
    Store × Nat :=
  let did := s.nextId
  let dec : Decision :=
    { id := did, scenario_id := sid, title := nd.title,
      description := nd.description, time_limit := nd.time_limit,
      is_urgent := nd.is_urgent, is_active := false,
      trigger_condition := "Generated from previous decision" }
  let s1 := { s with decisions := s.decisions ++ [dec], nextId := s.nextId + 1 }
  (insertOptions sid did nd.options s1, did)

/-- The node trigger_time stored by `generateNextNode`:
`nextState.next_decision?.trigger_time || 0`. -/
def nodeTriggerTime (ns : NextState) : ℚ :=
  match ns.next_decision with
  | some nd => nd.trigger_time.getD 0
  | none => 0

/-- The generated-next-decision insert step of `generateNextNode`: when
the parsed response carries a `next_decision`, insert it (inactive) with
its options and return its id. -/
def insertGeneratedDecision (sid : Nat) (nd? : Option NextDecisionSpec)
    (s : Store) : Store × Option Nat :=
  match nd? with
  | some nd =>
      let r := insertNextDecision sid nd s
      (r.1, some r.2)
  | none => (s, none)

/-- The immediate parameter-change application step of `generateNextNode`
(`if (nextState.parameter_changes) ...`; this copy updates aircraft fields
only). -/
def applyGeneratedChanges (pc : Option ParamChange) (sid : Nat) (s : Store) :
    Store :=
  match pc with
  | some ch => applyAircraftChanges ch sid s
  | none => s

/-- The immediate-activation step of `generateNextNode`: activate the
generated decision only when it exists and the generated trigger time is
zero or absent. -/
def activateImmediateDecision (nextDecisionId : Option Nat) (tt : ℚ)
    (s : Store) : Store :=
  match nextDecisionId with
  | some ndid =>
      if tt = 0 then
        let ds := updateWhere (fun (d : Decision) => d.id == ndid)
          (fun d => { d with is_active := true }) s.decisions
        { s with decisions := ds }
      else s
  | none => s

/-- The post-parse tail of `generateNextNode`: given the decoded
structured response, insert the generated communications (unsent), insert
the generated next decision (inactive) with its options, insert the new
node (created `is_active = true`, with the stored trigger time and the
comm ids), apply the parameter changes immediately, activate the next
decision only when the generated trigger time is zero or absent, and
finally fire every generated communication.  Returns the new node id. -/
def generateCore (sid oid : Nat) (parentNodeId : Option Nat)
    (nextState : NextState) (s0 : Store) : Store × Nat :=
  let r1 := insertComms sid nextState.communications s0
  let s1 := r1.1
  let communicationIds := r1.2
  let r2 := insertGeneratedDecision sid nextState.next_decision s1
  let s2 := r2.1
  let nextDecisionId := r2.2
  let node : DecisionNode :=
    { id := s2.nextId
      decision_id := nextDecisionId
      scenario_id := sid
      parent_node_id := parentNodeId
      option_id := some oid
      is_active := true
      trigger_time := some (nodeTriggerTime nextState)
      communications_to_trigger := communicationIds
      parameter_changes :=
        (nextState.parameter_changes).getD ParamChange.empty }
  let s3 := { s2 with
    decision_nodes := s2.decision_nodes ++ [node]
    nextId := s2.nextId + 1 }
  let s4 := applyGeneratedChanges nextState.parameter_changes sid s3
  let s5 := activateImmediateDecision nextDecisionId (nodeTriggerTime nextState) s4
  let s6 := communicationIds.foldl fireComm s5
  (s6, node.id)

/-- `generateNextNode(scenarioId, decisionId, optionId, parentNodeId)` from
decisionTree.ts: read decision/option/aircraft/scenario, make one
language-model call, extract its JSON, then run the post-parse tail
`generateCore` above.  (In the source a failure after an insert leaves the
earlier inserts committed; the `Except` result here is only consumed on
the success path by the theorems below.) -/
def generateNextNode (env : LlmEnv) (sid did oid : Nat)
    (parentNodeId : Option Nat) (s : Store) : Except Err (Store × Option Nat) :=
  match strictSingle (fun d => d.id == did) s.decisions with
  | .error e => .error e
  | .ok _decision =>
    match (s.decision_options.filter (fun o => o.decision_id == did)).find?
        (fun o => o.id == oid) with
    | none => .error "Selected option not found"
    | some _selectedOption =>
      match strictSingle (fun a => a.scenario_id == sid) s.aircraft_positions with
      | .error e => .error e
      | .ok _aircraft =>
        match strictSingle (fun sc => sc.id == sid) s.scenarios with
        | .error e => .error e
        | .ok _scenario =>
          let response := env.respond s.llmCalls
          let s0 := { s with llmCalls := s.llmCalls + 1 }
          match extractJsonFromResponse env.jsonOk response with
          | .error e => .error e
          | .ok str =>
            let r := generateCore sid oid parentNodeId (env.decodeNext str) s0
            .ok (r.1, some r.2)

/-- The predicate of the currently-active-node query in `processDecision`. -/
def isActiveNodeOf (sid : Nat) (n : DecisionNode) : Bool :=
  n.scenario_id == sid && n.is_active

/-- The response insert of `processDecision`. -/
def recordResponse (sid did oid : Nat) (s : Store) : Store :=
  { s with decision_responses := s.decision_responses ++
      [{ scenario_id := sid, decision_id := did, option_id := oid }] }

/-- The decision deactivation of `processDecision`. -/
def deactivateDecision (did : Nat) (s : Store) : Store :=
  let ds := updateWhere (fun (d : Decision) => d.id == did)
    (fun d => { d with is_active := false }) s.decisions
  { s with decisions := ds }

/-- The current-node deactivation of `processDecision`. -/
def deactivateNode (nid : Nat) (s : Store) : Store :=
  let ns := updateWhere (fun (n : DecisionNode) => n.id == nid)
    (fun n => { n with is_active := false }) s.decision_nodes
  { s with decision_nodes := ns }

/-- `processDecision(scenarioId, decisionId, optionId)` from
decisionTree.ts: record the response, deactivate the decision, find and
deactivate the currently-active node (PGRST116 tolerated), look for an
existing child of that node for the chosen option (matching nothing when
there is no current node, as `.eq('parent_node_id', undefined)` matches no
row), activate it if found, else synthesize the next node dynamically. -/
def processDecision (env : LlmEnv) (sid did oid : Nat) (s : Store) :
    Except Err (Store × Option Nat) :=
  let s1 := recordResponse sid did oid s
  let s2 := deactivateDecision did s1
  let currentNode := singleOrNone (isActiveNodeOf sid) s2.decision_nodes
  let s3 :=
    match currentNode with
    | some cn => deactivateNode cn.id s2
    | none => s2
  let nextNode :=
    match currentNode with
    | some cn =>
        singleOrNone
          (fun (n : DecisionNode) => n.scenario_id == sid &&
            n.parent_node_id == some cn.id && n.option_id == some oid)
          s3.decision_nodes
    | none => none
  match nextNode with
  | some nn =>
    match activateDecisionNode nn.id s3 with
    | .error e => .error e
    | .ok s4 => .ok (s4, some nn.id)
  | none =>
    generateNextNode env sid did oid (currentNode.map (fun n => n.id)) s3

/-- The decision-node trigger query of `checkTimeTriggers`
(scenarioTiming.ts lines 138-145): inactive nodes of the scenario with a
non-null trigger_time that has been reached. -/
def dueNodes (sid : Nat) (elapsed : ℚ) (s : Store) : List DecisionNode :=
  s.decision_nodes.filter (fun n =>
    n.scenario_id == sid && !n.is_active &&
      match n.trigger_time with
      | some t => decide (t ≤ elapsed)
      | none => false)

/-- The sequential activation loop of `checkTimeTriggers`; a failing
activation aborts the loop with the store as committed so far. -/
def activateLoop : List Nat → Store → Store × Option Err
  | [], s => (s, none)
  | nid :: rest, s =>
    match activateDecisionNode nid s with
    | .error e => (s, some e)
    | .ok s1 => activateLoop rest s1

/-- `checkTimeTriggers(scenarioId, elapsedSeconds)`: activate every due
node.  No currently-active node is deactivated by this path. -/
def checkTimeTriggers (sid : Nat) (elapsed : ℚ) (s : Store) :
    Store × Option Err :=
  activateLoop ((dueNodes sid elapsed s).map (fun n => n.id)) s

/-- The queue query of `checkCommunicationsTriggers`: unsent items of the
scenario whose non-null trigger_time has been reached. -/
def dueComms (sid : Nat) (elapsed : ℚ) (s : Store) : List CommQueueItem :=
  s.communications_queue.filter (fun c =>
    c.scenario_id == sid && !c.is_sent &&
      match c.trigger_time with
      | some t => decide (t ≤ elapsed)
      | none => false)

/-- One iteration of the delivery loop of `checkCommunicationsTriggers`:
mark the row sent, then append a history copy built from the queried row
itself (this copy, unlike `fireComm`, does not re-read the row). -/
def deliverComm (s : Store) (c : CommQueueItem) : Store :=
  let queue1 := updateWhere (fun (q : CommQueueItem) => q.id == c.id)
    (fun q => { q with is_sent := true }) s.communications_queue
  let s1 := { s with communications_queue := queue1 }
  { s1 with communications := s1.communications ++ [c.toHistory] }

/-- `checkCommunicationsTriggers(scenarioId, elapsedSeconds)`. -/
def checkCommunicationsTriggers (sid : Nat) (elapsed : ℚ) (s : Store) : Store :=
  (dueComms sid elapsed s).foldl deliverComm s

/-- `getScenarioTiming` (PGRST116 tolerated → null). -/
def getScenarioTiming (sid : Nat) (s : Store) : Option ScenarioTiming :=
  singleOrNone (fun t => t.scenario_id == sid) s.timings

/-- `updateScenarioTiming(scenarioId, elapsedSeconds, isPaused)`. -/
def updateScenarioTiming (sid : Nat) (elapsedSeconds : ℚ) (isPaused : Bool)
    (s : Store) : Store :=
  let rows := updateWhere (fun (t : ScenarioTiming) => t.scenario_id == sid)
    (fun t => { t with elapsed_seconds := elapsedSeconds, is_paused := isPaused })
    s.timings
  { s with timings := rows }

/-- The store-level effect of the tick's `simulateContinuousChanges` call:
read the scenario's parameter row (seeding the defaults when it is
missing, as in parameterSimulation.ts) and persist the simulated record. -/
def storeSimulate (cosDeg sinDeg : ℚ → ℚ) (sid : Nat) (elapsed : ℚ)
    (s : Store) : Store :=
  match singleOrNone (fun a => a.scenario_id == sid) s.aircraft_positions with
  | some p =>
      let upd := simulateStep cosDeg sinDeg p elapsed
      let rows := updateWhere (fun (a : AircraftParameters) => a.scenario_id == sid)
        (fun _ => upd) s.aircraft_positions
      { s with aircraft_positions := rows }
  | none =>
      let upd := simulateStep cosDeg sinDeg (defaultParameters sid) elapsed
      { s with aircraft_positions := s.aircraft_positions ++ [upd] }

/-- `processScenarioTick(scenarioId, secondsElapsed)` from
realTimeAdaptation.ts (the copy imported by the simulator page): no-op
when the timing row is absent or paused; update elapsed time; run the
Parameter Simulator inside its own try/catch — a simulator failure is
logged and the tick continues; then the decision-node trigger check and
the communications trigger check.  The outer catch logs and swallows
every error, so the tick itself never throws: a timing-update failure
(`timingFails`) or a trigger-check failure aborts the remaining steps but
still returns normally.  `timingFails` and `simFails` are failure oracles
for the corresponding awaited network calls. -/
def processScenarioTick (cosDeg sinDeg : ℚ → ℚ) (timingFails simFails : Bool)
    (sid : Nat) (secondsElapsed : ℚ) (s : Store) : Store :=
  match getScenarioTiming sid s with
  | none => s
  | some timing =>
    if timing.is_paused then s
    else if timingFails then s
    else
      let newElapsedSeconds := timing.elapsed_seconds + secondsElapsed
      let s1 := updateScenarioTiming sid newElapsedSeconds false s
      let s2 := if simFails then s1
        else storeSimulate cosDeg sinDeg sid secondsElapsed s1
      match checkTimeTriggers sid newElapsedSeconds s2 with
      | (s3, some _) => s3
      | (s3, none) => checkCommunicationsTriggers sid newElapsedSeconds s3

/-- Number of active decision nodes of a scenario. -/
def activeNodeCount (s : Store) (sid : Nat) : Nat :=
  (s.decision_nodes.filter (isActiveNodeOf sid)).length

/-- The queue rows `insertComms` creates for the given specs starting at
the given fresh id. -/
def mkQueueItems (sid : Nat) : List CommSpec → Nat → List CommQueueItem
  | [], _ => []
  | c :: rest, n => mkQueueItem sid c n :: mkQueueItems sid rest (n + 1)

/-- Whether the decision row with the given id is active (`none` when the
row does not exist). -/
def decisionActive (s : Store) (did : Nat) : Option Bool :=
  (s.decisions.find? (fun d => d.id == did)).map (fun d => d.is_active)

/-- A base store for the decision-tree runs: one scenario (id 1) with one
active decision (id 10) offering one option (id 20), an aircraft row, an
unpaused timing row, and no decision nodes yet. -/
def treeStore : Store :=
  { scenarios := [{ id := 1, title := "s", description := "d", initial_fuel := 15000 }]
    decisions :=
      [{ id := 10, scenario_id := 1, title := "D", description := "",
         time_limit := none, is_urgent := false, is_active := true,
         trigger_condition := "c" }]
    decision_options :=
      [{ id := 20, decision_id := 10, scenario_id := 1, text := "A",
         consequences := "", is_recommended := false }]
    decision_nodes := []
    decision_responses := []
    communications_queue := []
    communications := []
    scenario_states := []
    decision_impacts := []
    aircraft_positions :=
      [{ scenario_id := 1, latitude := 0, longitude := 0, altitude := 30000,
         heading := 90, speed := 450, vertical_speed := 0, fuel := 15000,
         fuel_burn_rate := 50 }]
    weather_conditions := []
    timings := [{ scenario_id := 1, is_paused := false, elapsed_seconds := 0 }]
    nextId := 100
    llmCalls := 0 }

/-- An oracle whose generated `next_decision` carries `trigger_time` 30. -/
def delayedDecisionEnv : LlmEnv :=
  { respond := fun _ => "r"
    jsonOk := fun _ => true
    decodeNext := fun _ =>
      { parameter_changes := none
        communications := []
        next_decision := some
          { title := "N", description := "", time_limit := none,
            is_urgent := false,
            options := [{ text := "O", consequences := "", is_recommended := false }],
            trigger_time := some 30 } }
    decodeImpact := fun _ =>
      { safety_impact := 0, efficiency_impact := 0,
        passenger_comfort_impact := 0, time_impact := 0, fuel_impact := 0,
        description := "" } }

/-- The same oracle with `trigger_time` 0. -/
def immediateDecisionEnv : LlmEnv :=
  { respond := fun _ => "r"
    jsonOk := fun _ => true
    decodeNext := fun _ =>
      { parameter_changes := none
        communications := []
        next_decision := some
          { title := "N", description := "", time_limit := none,
            is_urgent := false,
            options := [{ text := "O", consequences := "", is_recommended := false }],
            trigger_time := some 0 } }
    decodeImpact := fun _ =>
      { safety_impact := 0, efficiency_impact := 0,
        passenger_comfort_impact := 0, time_impact := 0, fuel_impact := 0,
        description := "" } }

/-- One decision processed against `treeStore` with the trigger-30 oracle:
the call synthesizes decision 100 (inactive) and node 102 (active,
trigger_time 30). -/
def delayedRun1 : Option Store :=
  match processDecision delayedDecisionEnv 1 10 20 treeStore with
  | .ok (s1, _) => some s1
  | .error _ => none

/-- Two decisions processed back to back with the trigger-30 oracle and
then one time-trigger check at elapsed 60: the run used by the C3
counterexample.  The second `processDecision` deactivates node 102 (its
trigger_time 30 remains), creates node 105 (active); the trigger check at
elapsed 60 then re-activates node 102 while 105 stays active. -/
def c3Run : Option (Store × Option Err) :=
  match processDecision delayedDecisionEnv 1 10 20 treeStore with
  | .ok (s1, _) =>
    match processDecision delayedDecisionEnv 1 10 20 s1 with
    | .ok (s2, _) => some (checkTimeTriggers 1 60 s2)
    | .error _ => none
  | .error _ => none

/-- One decision processed with the trigger-0 oracle. -/
def immediateRun1 : Option Store :=
  match processDecision immediateDecisionEnv 1 10 20 treeStore with
  | .ok (s1, _) => some s1
  | .error _ => none

/-- Store for the C8 counterexample: one inactive node (id 40) carrying one
attached communication (queue row 30, unsent). -/
def c8Store : Store :=
  { scenarios := [{ id := 1, title := "s", description := "d", initial_fuel := 15000 }]
    decisions := []
    decision_options := []
    decision_nodes :=
      [{ id := 40, decision_id := none, scenario_id := 1,
         parent_node_id := none, option_id := none, is_active := false,
         trigger_time := some 0, communications_to_trigger := [30],
         parameter_changes := ParamChange.empty }]
    decision_responses := []
    communications_queue :=
      [{ id := 30, scenario_id := 1, type := "atc", sender := "ATC",
         message := "m", is_important := false, is_sent := false,
         trigger_condition := "c", trigger_time := none }]
    communications := []
    scenario_states := []
    decision_impacts := []
    aircraft_positions :=
      [{ scenario_id := 1, latitude := 0, longitude := 0, altitude := 30000,
         heading := 90, speed := 450, vertical_speed := 0, fuel := 15000,
         fuel_burn_rate := 50 }]
    weather_conditions := []
    timings := [{ scenario_id := 1, is_paused := false, elapsed_seconds := 0 }]
    nextId := 100
    llmCalls := 0 }

/-- Activating node 40 and then activating it again while it is already
active: the run used by the C8 counterexample. -/
def c8Run : Option Store :=
  match activateDecisionNode 40 c8Store with
  | .ok s1 =>
    match activateDecisionNode 40 s1 with
    | .ok s2 => some s2
    | .error _ => none
  | .error _ => none

/-- Store for the C6 witness: an unpaused timing row at elapsed 10 and
nothing pending. -/
def c6Store : Store :=
  { scenarios := [{ id := 1, title := "s", description := "d", initial_fuel := 15000 }]
    decisions := []
    decision_options := []
    decision_nodes := []
    decision_responses := []
    communications_queue := []
    communications := []
    scenario_states := []
    decision_impacts := []
    aircraft_positions := []
    weather_conditions := []
    timings := [{ scenario_id := 1, is_paused := false, elapsed_seconds := 10 }]
    nextId := 100
    llmCalls := 0 }

/-- The tick result expected on `c6Store` when the simulator call fails:
only the timing row advances. -/
def c6Expected : Store :=
  { c6Store with
    timings := [{ scenario_id := 1, is_paused := false, elapsed_seconds := 15 }] }

/-- The currently-active node of the C4 witness store. -/
def c4cn : DecisionNode :=
  { id := 50, decision_id := some 10, scenario_id := 1, parent_node_id := none,
    option_id := none, is_active := true, trigger_time := some 0,
    communications_to_trigger := [], parameter_changes := ParamChange.empty }

/-- The pre-existing child node of the C4 witness store, for (parent 50,
option 20). -/
def c4child : DecisionNode :=
  { id := 60, decision_id := some 11, scenario_id := 1,
    parent_node_id := some 50, option_id := some 20, is_active := false,
    trigger_time := some 0, communications_to_trigger := [],
    parameter_changes := ParamChange.empty }

/-- Store for the C4 witness: decision 10 (active) with option 20, active
node 50, and a materialized child node 60 for (50, option 20) tied to the
next decision 11. -/
def c4Store : Store :=
  { scenarios := [{ id := 1, title := "s", description := "d", initial_fuel := 15000 }]
    decisions :=
      [{ id := 10, scenario_id := 1, title := "D", description := "",
         time_limit := none, is_urgent := false, is_active := true,
         trigger_condition := "c" },
       { id := 11, scenario_id := 1, title := "E", description := "",
         time_limit := none, is_urgent := false, is_active := false,
         trigger_condition := "c" }]
    decision_options :=
      [{ id := 20, decision_id := 10, scenario_id := 1, text := "A",
         consequences := "", is_recommended := false }]
    decision_nodes := [c4cn, c4child]
    decision_responses := []
    communications_queue := []
    communications := []
    scenario_states := []
    decision_impacts := []
    aircraft_positions :=
      [{ scenario_id := 1, latitude := 0, longitude := 0, altitude := 30000,
         heading := 90, speed := 450, vertical_speed := 0, fuel := 15000,
         fuel_burn_rate := 50 }]
    weather_conditions := []
    timings := [{ scenario_id := 1, is_paused := false, elapsed_seconds := 0 }]
    nextId := 100
    llmCalls := 0 }

/-- An oracle that would fail JSON extraction: if the C4 path consulted the
language model at all, the run would error rather than succeed. -/
def c4Env : LlmEnv :=
  { respond := fun _ => "x"
    jsonOk := fun _ => false
    decodeNext := fun _ =>
      { parameter_changes := none, communications := [], next_decision := none }
    decodeImpact := fun _ =>
      { safety_impact := 0, efficiency_impact := 0,
        passenger_comfort_impact := 0, time_impact := 0, fuel_impact := 0,
        description := "" } }

/-- The store produced by processing decision 10 / option 20 on `c4Store`:
the response is recorded, decision 10 deactivated, decision 11 (the
child's) activated, node 50 deactivated and node 60 activated. -/
def c4OutStore : Store :=
  { c4Store with
    decisions :=
      [{ id := 10, scenario_id := 1, title := "D", description := "",
         time_limit := none, is_urgent := false, is_active := false,
         trigger_condition := "c" },
       { id := 11, scenario_id := 1, title := "E", description := "",
         time_limit := none, is_urgent := false, is_active := true,
         trigger_condition := "c" }]
    decision_nodes :=
      [{ id := 50, decision_id := some 10, scenario_id := 1,
         parent_node_id := none, option_id := none, is_active := false,
         trigger_time := some 0, communications_to_trigger := [],
         parameter_changes := ParamChange.empty },
       { id := 60, decision_id := some 11, scenario_id := 1,
         parent_node_id := some 50, option_id := some 20, is_active := true,
         trigger_time := some 0, communications_to_trigger := [],
         parameter_changes := ParamChange.empty }]
    decision_responses :=
      [{ scenario_id := 1, decision_id := 10, option_id := 20 }] }

/-- Oracle for the C10 witness: the model invents exactly one
communication and no next decision. -/
def c10Env : LlmEnv :=
  { respond := fun _ => "r"
    jsonOk := fun _ => true
    decodeNext := fun _ =>
      { parameter_changes := none
        communications :=
          [{ type := "atc", sender := "ATC", message := "m",
             is_important := false }]
        next_decision := none }
    decodeImpact := fun _ =>
      { safety_impact := 0, efficiency_impact := 0,
        passenger_comfort_impact := 0, time_impact := 0, fuel_impact := 0,
        description := "" } }

/-- The store produced by `generateNextNode` with `c10Env` on `treeStore`:
the generated communication sits in the queue already marked sent and its
copy is in the history; the new node 101 is active. -/
def c10OutStore : Store :=
  { treeStore with
    communications_queue :=
      [{ id := 100, scenario_id := 1, type := "atc", sender := "ATC",
         message := "m", is_important := false, is_sent := true,
         trigger_condition := "Generated from decision", trigger_time := none }]
    communications :=
      [{ scenario_id := 1, type := "atc", sender := "ATC", message := "m",
         is_important := false }]
    decision_nodes :=
      [{ id := 101, decision_id := none, scenario_id := 1,
         parent_node_id := none, option_id := some 20, is_active := true,
         trigger_time := some 0, communications_to_trigger := [100],
         parameter_changes := ParamChange.empty }]
    nextId := 102
    llmCalls := 1 }

/-- Concrete store for the C2 witness: one scenario, one aircraft row, one
prior snapshot. -/
def c2Store : Store :=
  { scenarios := [{ id := 1, title := "t", description := "d", initial_fuel := 15000 }]
    decisions := []
    decision_options := []
    decision_nodes := []
    decision_responses := []
    communications_queue := []
    communications := []
    scenario_states :=
      [{ scenario_id := 1, current_safety_score := 90,
         current_efficiency_score := 80, current_passenger_comfort_score := 70,
         time_deviation := 5, fuel_remaining := 12000 }]
    decision_impacts := []
    aircraft_positions :=
      [{ scenario_id := 1, latitude := 0, longitude := 0,
         altitude := 30000, heading := 90, speed := 450, vertical_speed := 0,
         fuel := 14000, fuel_burn_rate := 50 }]
    weather_conditions := []
    timings := []
    nextId := 100
    llmCalls := 0 }

def c2PrevState : ScenarioState :=
  { scenario_id := 1, current_safety_score := 90, current_efficiency_score := 80,
    current_passenger_comfort_score := 70, time_deviation := 5,
    fuel_remaining := 12000 }

def c2Impact : DecisionImpact :=
  { scenario_id := 1, decision_id := 10, option_id := 20, safety_impact := 20,
    efficiency_impact := -4, passenger_comfort_impact := 3, time_impact := 12,
    fuel_impact := 500, description := "w" }

def c2NewState : ScenarioState :=
  { scenario_id := 1, current_safety_score := 100, current_efficiency_score := 76,
    current_passenger_comfort_score := 73, time_deviation := 17,
    fuel_remaining := 11500 }

def c2OutStore : Store :=
  { c2Store with scenario_states := c2Store.scenario_states ++ [c2NewState] }

def c5Env : LlmEnv :=
  { respond := fun _ => "x"
    jsonOk := fun _ => false
    decodeNext := fun _ =>
      { parameter_changes := none, communications := [],
        next_decision := none }
    decodeImpact := fun _ =>
      { safety_impact := 0, efficiency_impact := 0,
        passenger_comfort_impact := 0, time_impact := 0, fuel_impact := 0,
        description := "d" } }


/-- C1: one step of the Parameter Simulator computes exactly
`fuel' = max(0, fuel - (fuel_burn_rate/60)*elapsed)` (hence fuel is never
negative), `latitude' = latitude + cos(heading_rad)*(speed/3600/60)*elapsed`,
`longitude' = longitude + sin(heading_rad)*(speed/3600/60)*elapsed`, and
`altitude' = altitude + (vertical_speed/60)*elapsed`, for every parameter
record and every elapsed value ≥ 0 and every interpretation of cos/sin.
The position and altitude equations are proved without the speed /
vertical-speed guards because when the guarded quantity is zero both sides
coincide. -/
theorem simulateStep_spec (cosDeg sinDeg : ℚ → ℚ) (p : AircraftParameters)
    (elapsed : ℚ) (h : 0 ≤ elapsed) :
    (simulateStep cosDeg sinDeg p elapsed).fuel =
      max 0 (p.fuel - p.fuel_burn_rate / 60 * elapsed) ∧
    0 ≤ (simulateStep cosDeg sinDeg p elapsed).fuel ∧
    (simulateStep cosDeg sinDeg p elapsed).latitude =
      p.latitude + cosDeg p.heading * (p.speed / 3600 / 60) * elapsed ∧
    (simulateStep cosDeg sinDeg p elapsed).longitude =
      p.longitude + sinDeg p.heading * (p.speed / 3600 / 60) * elapsed ∧
    (simulateStep cosDeg sinDeg p elapsed).altitude =
      p.altitude + p.vertical_speed / 60 * elapsed := by
  unfold simulateStep
  refine ⟨rfl, le_max_left 0 _, ?_, ?_, ?_⟩
  · by_cases hs : p.speed = 0 <;> simp [hs]
  · by_cases hs : p.speed = 0 <;> simp [hs]
  · by_cases hv : p.vertical_speed = 0 <;> simp [hv]

/-- Witness for C1, instantiated at the Storm Approach scenario data
(initial fuel 15000 lbs, burn rate 50 lbs/min) ticked for 60 simulated
seconds: the new fuel is 14950 lbs. -/
theorem simulateStep_spec_witness :
    (simulateStep (fun _ => 0) (fun _ => 1)
      { scenario_id := 1, latitude := 0, longitude := 0, altitude := 30000,
        heading := 90, speed := 450, vertical_speed := 0,
        fuel := 15000, fuel_burn_rate := 50 } 60).fuel = 14950 := by
  have h := simulateStep_spec (fun _ => 0) (fun _ => 1)
    { scenario_id := 1, latitude := 0, longitude := 0, altitude := 30000,
      heading := 90, speed := 450, vertical_speed := 0,
      fuel := 15000, fuel_burn_rate := 50 } 60 (by norm_num)
  rw [h.1]
  norm_num

/-- C7 counterexample: called with no prior parameter record, the
Parameter Simulator does not fail with a NoCurrentState error.  It
invents the default record (fuel 15000, burn rate 50, altitude 30000,
heading 90, speed 450), persists it, and returns the simulation applied
to those defaults: a successful result, not an error. -/
theorem simulateContinuousChanges_no_error_cex :
    simulateContinuousChanges (fun _ => 0) (fun _ => 1) 7 none 60 =
      .ok (simulateStep (fun _ => 0) (fun _ => 1) (defaultParameters 7) 60,
           [defaultParameters 7,
            simulateStep (fun _ => 0) (fun _ => 1) (defaultParameters 7) 60]) := by
  rfl

/-- C7 amended: when no prior parameter record exists the simulator does
not error and the caller need not seed defaults; the simulator itself
invents the default parameters, persists them (non-fatally) and then
persists the simulated record — its only side effects are these two
persists.  When a record exists, only the simulated record is persisted. -/
theorem simulateContinuousChanges_defaults_spec (cosDeg sinDeg : ℚ → ℚ)
    (scenarioId : Nat) (elapsed : ℚ) :
    simulateContinuousChanges cosDeg sinDeg scenarioId none elapsed =
      .ok (simulateStep cosDeg sinDeg (defaultParameters scenarioId) elapsed,
           [defaultParameters scenarioId,
            simulateStep cosDeg sinDeg (defaultParameters scenarioId) elapsed]) ∧
    ∀ p : AircraftParameters,
      simulateContinuousChanges cosDeg sinDeg scenarioId (some p) elapsed =
        .ok (simulateStep cosDeg sinDeg p elapsed,
             [simulateStep cosDeg sinDeg p elapsed]) := by
  exact ⟨rfl, fun _ => rfl⟩

/-- C2: for every ScenarioState transition applied by `updateScenarioState`
with a DecisionImpact, the new snapshot satisfies
`score' = clamp(score + impact, 0, 100)` in each of the three score
dimensions (hence all three stay inside [0,100]),
`time_deviation' = time_deviation + time_impact`, and
`fuel_remaining' = fuel_remaining - fuel_impact`; the new state is appended
as a new snapshot and the prior snapshots are left unchanged. -/
theorem updateScenarioState_spec (sid : Nat) (impact : DecisionImpact)
    (s : Store) (cur ns : ScenarioState) (s' : Store)
    (hcur : latestState s sid = some cur)
    (h : updateScenarioState sid impact s = .ok (ns, s')) :
    ns.current_safety_score =
      max 0 (min 100 (cur.current_safety_score + impact.safety_impact)) ∧
    ns.current_efficiency_score =
      max 0 (min 100 (cur.current_efficiency_score + impact.efficiency_impact)) ∧
    ns.current_passenger_comfort_score =
      max 0 (min 100 (cur.current_passenger_comfort_score +
        impact.passenger_comfort_impact)) ∧
    (0 ≤ ns.current_safety_score ∧ ns.current_safety_score ≤ 100) ∧
    (0 ≤ ns.current_efficiency_score ∧ ns.current_efficiency_score ≤ 100) ∧
    (0 ≤ ns.current_passenger_comfort_score ∧
      ns.current_passenger_comfort_score ≤ 100) ∧
    ns.time_deviation = cur.time_deviation + impact.time_impact ∧
    ns.fuel_remaining = cur.fuel_remaining - impact.fuel_impact ∧
    s'.scenario_states = s.scenario_states ++ [ns] := by
  have hclamp_lo : ∀ x : ℚ, 0 ≤ clampScore x := fun x => le_max_left 0 _
  have hclamp_hi : ∀ x : ℚ, clampScore x ≤ 100 := fun x =>
    max_le (by norm_num) (min_le_left 100 x)
  unfold updateScenarioState at h
  split at h
  · exact Except.noConfusion h
  split at h
  · exact Except.noConfusion h
  simp only [Except.ok.injEq, Prod.mk.injEq] at h
  unfold currentOrInitialState at h
  rw [hcur] at h
  obtain ⟨hns, hs'⟩ := h
  subst hns
  subst hs'
  exact ⟨rfl, rfl, rfl, ⟨hclamp_lo _, hclamp_hi _⟩, ⟨hclamp_lo _, hclamp_hi _⟩,
    ⟨hclamp_lo _, hclamp_hi _⟩, rfl, rfl, rfl⟩

/-- Witness for C2 at a concrete transition: safety 90+20 clamps to 100,
and the new snapshot is appended after the untouched prior one. -/
theorem updateScenarioState_spec_witness :
    c2NewState.current_safety_score = max 0 (min 100 (90 + 20)) ∧
    c2OutStore.scenario_states = c2Store.scenario_states ++ [c2NewState] := by
  have hok : updateScenarioState 1 c2Impact c2Store = .ok (c2NewState, c2OutStore) := by
    unfold updateScenarioState
    norm_num [strictSingle, currentOrInitialState, latestState, initialFuelOf,
      clampScore, c2Store, c2Impact, c2NewState, c2OutStore]
  have h := updateScenarioState_spec 1 c2Impact c2Store c2PrevState c2NewState
    c2OutStore (by rfl) hok
  exact ⟨h.1, h.2.2.2.2.2.2.2.2⟩

/-- C5: if the language-model response cannot be parsed as JSON after the
fallback extraction attempts, `processDecisionImpact` fails as a whole and
no partial state update occurs: no DecisionImpact record is saved and no
new ScenarioState snapshot is persisted. -/
theorem processDecisionImpact_parse_failure_atomic (env : LlmEnv)
    (sid did oid : Nat) (s : Store) (e : Err)
    (hfail : extractJsonFromResponse env.jsonOk (env.respond s.llmCalls) =
      .error e) :
    (∃ e2, (processDecisionImpact env sid did oid s).1 = .error e2) ∧
    ((processDecisionImpact env sid did oid s).2).decision_impacts =
      s.decision_impacts ∧
    ((processDecisionImpact env sid did oid s).2).scenario_states =
      s.scenario_states := by
  unfold processDecisionImpact calculateDecisionImpact
  dsimp only
  cases h1 : strictSingle (fun d => d.id == did) s.decisions with
  | error e1 => refine ⟨⟨e1, ?_⟩, ?_, ?_⟩ <;> rfl
  | ok d =>
    cases h2 : (s.decision_options.filter (fun o => o.decision_id == did)).find?
        (fun o => o.id == oid) with
    | none => refine ⟨⟨"Selected option not found", ?_⟩, ?_, ?_⟩ <;> rfl
    | some opt =>
      cases h3 : strictSingle (fun a => a.scenario_id == sid)
          s.aircraft_positions with
      | error e3 => refine ⟨⟨e3, ?_⟩, ?_, ?_⟩ <;> rfl
      | ok aircraft =>
        cases h4 : strictSingle (fun sc => sc.id == sid) s.scenarios with
        | error e4 => refine ⟨⟨e4, ?_⟩, ?_, ?_⟩ <;> rfl
        | ok scen =>
          refine ⟨⟨e, ?_⟩, ?_, ?_⟩ <;> simp [hfail]

/-- Witness for C5: an unparseable response leaves the impact table and
the snapshot log exactly as they were. -/
theorem processDecisionImpact_parse_failure_atomic_witness :
    ((processDecisionImpact c5Env 1 10 20 c2Store).2).decision_impacts =
      c2Store.decision_impacts ∧
    ((processDecisionImpact c5Env 1 10 20 c2Store).2).scenario_states =
      c2Store.scenario_states := by
  have h := processDecisionImpact_parse_failure_atomic c5Env 1 10 20 c2Store
    "No valid JSON found in response" (by rfl)
  exact ⟨h.2.1, h.2.2⟩

/-- C3 counterexample: after two processDecision calls and one scenario
tick trigger check — a legal operation sequence from a one-decision
scenario — two DecisionNodes of scenario 1 are active at once, and the
trigger check reported no error.  `checkTimeTriggers` activates every due
inactive node (here the node deactivated by the second decision, whose
trigger_time 30 ≤ 60) without deactivating the currently-active one. -/
theorem activeNode_uniqueness_cex :
    c3Run.map (fun p => (activeNodeCount p.1 1, p.2.isSome)) =
      some (2, false) := by
  decide

/-- C8 counterexample: node 40 carries communication 30; activating it and
then activating it again while it is already active appends the same
Communication history entry twice — `activateDecisionNode` re-fires its
attached communications unconditionally. -/
theorem activateDecisionNode_duplicates_cex :
    c8Run.map (fun s => s.communications) =
      some [{ scenario_id := 1, type := "atc", sender := "ATC", message := "m",
              is_important := false },
            { scenario_id := 1, type := "atc", sender := "ATC", message := "m",
              is_important := false }] := by
  decide

/-- The communications appended by the delivery loop are exactly the
history copies of the rows it was given, in order. -/
theorem foldl_deliverComm_comms (cs : List CommQueueItem) (s : Store) :
    (cs.foldl deliverComm s).communications =
      s.communications ++ cs.map CommQueueItem.toHistory := by
  induction cs generalizing s with
  | nil => simp
  | cons c rest ih =>
      have hstep : (deliverComm s c).communications =
          s.communications ++ [c.toHistory] := rfl
      simp [List.foldl_cons, ih, hstep, List.append_assoc]

/-- C8 amended: the tick's communication check is duplicate-safe — it
copies into the history exactly the due queue rows, and every due row has
`is_sent = false`, so a row already marked sent is never copied again;
`activateDecisionNode`, by contrast, re-fires its attached communications
unconditionally, so activating an already-active node does duplicate
history entries (see the counterexample). -/
theorem checkCommunicationsTriggers_skips_sent (sid : Nat) (elapsed : ℚ)
    (s : Store) :
    (checkCommunicationsTriggers sid elapsed s).communications =
      s.communications ++ (dueComms sid elapsed s).map CommQueueItem.toHistory ∧
    ∀ c ∈ dueComms sid elapsed s, c.is_sent = false := by
  constructor
  · exact foldl_deliverComm_comms _ _
  · intro c hc
    have h := (List.mem_filter.mp hc).2
    simp only [Bool.and_eq_true, Bool.not_eq_true'] at h
    exact h.1.2

/-- Witness for the C8 amended theorem at the counterexample store: the
due unsent row 30 is delivered once. -/
theorem checkCommunicationsTriggers_skips_sent_witness :
    (checkCommunicationsTriggers 1 60 c8Store).communications =
      c8Store.communications ++
        (dueComms 1 60 c8Store).map CommQueueItem.toHistory :=
  (checkCommunicationsTriggers_skips_sent 1 60 c8Store).1

/-- C9: evaluated on the one-decision scenario, `generateNextNode` run via
`processDecision` activates the generated decision (id 100) immediately
when its trigger_time is 0, as claimed; but with trigger_time 30 the
generated decision is left inactive AND the Scenario Tick Processor's
trigger check at elapsed 60 ≥ 30 still leaves it inactive (without
failing), because the new node was created with `is_active = true` and the
trigger query selects only inactive nodes.  The second half of the claim
— that the Tick Processor triggers the decision once elapsed reaches
trigger_time — is therefore false of the code. -/
theorem generateNextNode_trigger_time_bug :
    immediateRun1.map (fun s => decisionActive s 100) = some (some true) ∧
    delayedRun1.map (fun s => decisionActive s 100) = some (some false) ∧
    delayedRun1.map (fun s =>
      ((checkTimeTriggers 1 60 s).2.isSome,
        decisionActive (checkTimeTriggers 1 60 s).1 100)) =
      some (false, some false) := by
  decide

/-- C6: on an active, unpaused scenario, a Parameter Simulator failure
(`simFails = true`) is caught and the tick continues — the result is
exactly the timing update followed by the decision-node trigger check and
the communications trigger check, and the tick returns normally; a timing
update failure, by contrast, is fatal to the tick: nothing after it runs. -/
theorem processScenarioTick_sim_failure_resilient (cosDeg sinDeg : ℚ → ℚ)
    (sid : Nat) (sec : ℚ) (s : Store) (t : ScenarioTiming)
    (ht : getScenarioTiming sid s = some t) (hp : t.is_paused = false) :
    processScenarioTick cosDeg sinDeg false true sid sec s =
      (match checkTimeTriggers sid (t.elapsed_seconds + sec)
          (updateScenarioTiming sid (t.elapsed_seconds + sec) false s) with
       | (s3, some _) => s3
       | (s3, none) =>
          checkCommunicationsTriggers sid (t.elapsed_seconds + sec) s3) ∧
    (∀ simFails : Bool,
      processScenarioTick cosDeg sinDeg true simFails sid sec s = s) := by
  unfold processScenarioTick
  rw [ht]
  simp [hp]

/-- Witness for C6 on a concrete unpaused scenario at elapsed 10 ticked by
5 seconds: with the simulator failing the tick still advances the clock to
15 (and the trigger checks run, finding nothing due); with the timing
update failing the tick leaves the store untouched. -/
theorem processScenarioTick_sim_failure_resilient_witness :
    processScenarioTick (fun _ => 0) (fun _ => 1) false true 1 5 c6Store =
      c6Expected ∧
    processScenarioTick (fun _ => 0) (fun _ => 1) true false 1 5 c6Store =
      c6Store := by
  have h := processScenarioTick_sim_failure_resilient (fun _ => 0) (fun _ => 1)
    1 5 c6Store { scenario_id := 1, is_paused := false, elapsed_seconds := 10 }
    (by rfl) rfl
  refine ⟨h.1.trans ?_, h.2 false⟩
  norm_num [checkTimeTriggers, dueNodes, activateLoop, checkCommunicationsTriggers,
    dueComms, updateScenarioTiming, updateWhere, c6Store, c6Expected]

/-- A successful `singleOrNone` pins the filtered rows to a singleton. -/
theorem singleOrNone_eq_some_iff (p : α → Bool) (l : List α) (x : α) :
    singleOrNone p l = some x ↔ l.filter p = [x] := by
  unfold singleOrNone
  constructor
  · intro h
    split at h
    · cases h
      assumption
    · exact Option.noConfusion h
  · intro h
    rw [h]

/-- A null `singleOrNone` means the filtered rows are not a singleton. -/
theorem singleOrNone_eq_none_length (p : α → Bool) (l : List α)
    (h : singleOrNone p l = none) : (l.filter p).length ≠ 1 := by
  intro hlen
  obtain ⟨x, hx⟩ := List.length_eq_one.mp hlen
  rw [(singleOrNone_eq_some_iff p l x).mpr hx] at h
  exact Option.noConfusion h

/-- Membership in an updated row list comes from a source row. -/
theorem mem_updateWhere (p : α → Bool) (f : α → α) (l : List α) (y : α)
    (h : y ∈ updateWhere p f l) : ∃ x ∈ l, y = if p x then f x else x := by
  obtain ⟨x, hx, hxy⟩ := List.mem_map.mp h
  exact ⟨x, hx, hxy.symm⟩

/-- An update that matches no row is the identity. -/
theorem updateWhere_eq_self (p : α → Bool) (f : α → α) (l : List α)
    (h : ∀ x ∈ l, p x = false) : updateWhere p f l = l := by
  unfold updateWhere
  rw [List.map_congr_left (fun x hx => by rw [h x hx])]
  exact List.map_id l

/-- Filtering commutes with a row update that does not change the
predicate. -/
theorem filter_updateWhere_comm (p q : α → Bool) (f : α → α) (l : List α)
    (hf : ∀ x, q (if p x then f x else x) = q x) :
    (updateWhere p f l).filter q =
      (l.filter q).map (fun x => if p x then f x else x) := by
  unfold updateWhere
  rw [List.filter_map]
  congr 1
  exact List.filter_congr (fun x _ => hf x)

/-- In a list with no duplicate ids, filtering by the id of a member
yields exactly that member. -/
theorem filter_eq_singleton_of_nodup (fid : α → Nat) (l : List α) (x : α)
    (hnd : (l.map fid).Nodup) (hx : x ∈ l) :
    l.filter (fun y => fid y == fid x) = [x] := by
  induction l with
  | nil => cases hx
  | cons a t ih =>
    rw [List.map_cons, List.nodup_cons] at hnd
    rcases List.mem_cons.mp hx with rfl | hxt
    · have ht : t.filter (fun y => fid y == fid x) = [] := by
        apply List.filter_eq_nil.mpr
        intro y hy hc
        exact hnd.1 (beq_iff_eq.mp hc ▸ List.mem_map_of_mem fid hy)
      simp [List.filter_cons, ht]
    · have hne : fid a ≠ fid x := by
        intro hc
        exact hnd.1 (hc ▸ List.mem_map_of_mem fid hxt)
      have hb : (fid a == fid x) = false := beq_eq_false_iff_ne.mpr hne
      rw [List.filter_cons]
      simp only [hb, Bool.false_eq_true, if_false]
      exact ih hnd.2 hxt

/-- At most one row carries any given id when the ids are duplicate-free. -/
theorem length_filter_id_le_one (fid : α → Nat) (l : List α) (i : Nat)
    (hnd : (l.map fid).Nodup) :
    (l.filter (fun y => fid y == i)).length ≤ 1 := by
  induction l with
  | nil => simp
  | cons a t ih =>
    rw [List.map_cons, List.nodup_cons] at hnd
    by_cases ha : fid a = i
    · have ht : t.filter (fun y => fid y == i) = [] := by
        apply List.filter_eq_nil.mpr
        intro y hy hc
        have hya : fid y = fid a := by rw [beq_iff_eq.mp hc, ha]
        exact hnd.1 (hya ▸ List.mem_map_of_mem fid hy)
      simp [List.filter_cons, ha, ht]
    · have hb : (fid a == i) = false := beq_eq_false_iff_ne.mpr ha
      rw [List.filter_cons]
      simp only [hb, Bool.false_eq_true, if_false]
      exact ih hnd.2

/-- `fireComm` touches only the communications queue and the history. -/
theorem fireComm_shape (s : Store) (cid : Nat) :
    ∃ q c, fireComm s cid =
      { s with communications_queue := q, communications := c } := by
  unfold fireComm
  dsimp only
  split
  · exact ⟨_, _, rfl⟩
  · exact ⟨_, _, rfl⟩

/-- The firing loop touches only the communications queue and history. -/
theorem foldl_fireComm_shape (ids : List Nat) (s : Store) :
    ∃ q c, ids.foldl fireComm s =
      { s with communications_queue := q, communications := c } := by
  induction ids generalizing s with
  | nil => exact ⟨s.communications_queue, s.communications, rfl⟩
  | cons i rest ih =>
    obtain ⟨q1, c1, h1⟩ := fireComm_shape s i
    obtain ⟨q2, c2, h2⟩ := ih (fireComm s i)
    rw [List.foldl_cons, h2, h1]
    exact ⟨q2, c2, rfl⟩

/-- `applyAircraftChanges` touches only the aircraft rows. -/
theorem applyAircraftChanges_shape (ch : ParamChange) (sid : Nat) (s : Store) :
    ∃ a, applyAircraftChanges ch sid s = { s with aircraft_positions := a } := by
  unfold applyAircraftChanges
  split
  · exact ⟨_, rfl⟩
  · exact ⟨s.aircraft_positions, rfl⟩

/-- `applyWeatherChange` touches only the weather rows. -/
theorem applyWeatherChange_shape (ch : ParamChange) (sid : Nat) (s : Store) :
    ∃ w, applyWeatherChange ch sid s = { s with weather_conditions := w } := by
  unfold applyWeatherChange
  split
  · exact ⟨_, rfl⟩
  · exact ⟨s.weather_conditions, rfl⟩

/-- Characterization of the queue-insertion loop: it appends exactly the
`mkQueueItems` rows, returns their ids in order, and advances the id
counter; nothing else changes. -/
theorem insertComms_spec (sid : Nat) (cs : List CommSpec) (s : Store) :
    insertComms sid cs s =
      ({ s with
          communications_queue :=
            s.communications_queue ++ mkQueueItems sid cs s.nextId
          nextId := s.nextId + cs.length },
       (mkQueueItems sid cs s.nextId).map (fun c => c.id)) := by
  induction cs generalizing s with
  | nil => simp [insertComms, mkQueueItems]
  | cons c rest ih =>
    rw [insertComms, mkQueueItems]
    dsimp only
    rw [ih]
    simp [List.append_assoc, Nat.add_comm, Nat.add_assoc, Nat.add_left_comm]

/-- The option bulk insert touches only the options and the id counter. -/
theorem insertOptions_shape (sid did : Nat) (os : List OptionSpec) (s : Store) :
    ∃ o n, insertOptions sid did os s =
      { s with decision_options := o, nextId := n } := by
  induction os generalizing s with
  | nil => exact ⟨s.decision_options, s.nextId, rfl⟩
  | cons o rest ih =>
    rw [insertOptions]
    obtain ⟨o2, n2, h2⟩ := ih _
    rw [h2]
    exact ⟨o2, n2, rfl⟩

/-- The next-decision insert touches only decisions, options and the id
counter. -/
theorem insertNextDecision_shape (sid : Nat) (nd : NextDecisionSpec) (s : Store) :
    ∃ d o n, (insertNextDecision sid nd s).1 =
      { s with decisions := d, decision_options := o, nextId := n } := by
  unfold insertNextDecision
  dsimp only
  obtain ⟨o2, n2, h2⟩ := insertOptions_shape sid s.nextId nd.options _
  rw [h2]
  exact ⟨_, o2, n2, rfl⟩

theorem updateWhere_append (p : α → Bool) (f : α → α) (l1 l2 : List α) :
    updateWhere p f (l1 ++ l2) = updateWhere p f l1 ++ updateWhere p f l2 :=
  List.map_append _ l1 l2

theorem foldl_fireComm_nodes (ids : List Nat) (s : Store) :
    (ids.foldl fireComm s).decision_nodes = s.decision_nodes := by
  obtain ⟨q, c, h⟩ := foldl_fireComm_shape ids s
  rw [h]

theorem foldl_fireComm_decisions (ids : List Nat) (s : Store) :
    (ids.foldl fireComm s).decisions = s.decisions := by
  obtain ⟨q, c, h⟩ := foldl_fireComm_shape ids s
  rw [h]

theorem foldl_fireComm_responses (ids : List Nat) (s : Store) :
    (ids.foldl fireComm s).decision_responses = s.decision_responses := by
  obtain ⟨q, c, h⟩ := foldl_fireComm_shape ids s
  rw [h]

theorem foldl_fireComm_llmCalls (ids : List Nat) (s : Store) :
    (ids.foldl fireComm s).llmCalls = s.llmCalls := by
  obtain ⟨q, c, h⟩ := foldl_fireComm_shape ids s
  rw [h]

theorem foldl_fireComm_nextId (ids : List Nat) (s : Store) :
    (ids.foldl fireComm s).nextId = s.nextId := by
  obtain ⟨q, c, h⟩ := foldl_fireComm_shape ids s
  rw [h]

theorem applyAircraftChanges_nodes (ch : ParamChange) (sid : Nat) (s : Store) :
    (applyAircraftChanges ch sid s).decision_nodes = s.decision_nodes := by
  obtain ⟨a, h⟩ := applyAircraftChanges_shape ch sid s
  rw [h]

theorem applyAircraftChanges_decisions (ch : ParamChange) (sid : Nat) (s : Store) :
    (applyAircraftChanges ch sid s).decisions = s.decisions := by
  obtain ⟨a, h⟩ := applyAircraftChanges_shape ch sid s
  rw [h]

theorem applyAircraftChanges_queue (ch : ParamChange) (sid : Nat) (s : Store) :
    (applyAircraftChanges ch sid s).communications_queue =
      s.communications_queue := by
  obtain ⟨a, h⟩ := applyAircraftChanges_shape ch sid s
  rw [h]

theorem applyAircraftChanges_comms (ch : ParamChange) (sid : Nat) (s : Store) :
    (applyAircraftChanges ch sid s).communications = s.communications := by
  obtain ⟨a, h⟩ := applyAircraftChanges_shape ch sid s
  rw [h]

theorem applyAircraftChanges_responses (ch : ParamChange) (sid : Nat) (s : Store) :
    (applyAircraftChanges ch sid s).decision_responses =
      s.decision_responses := by
  obtain ⟨a, h⟩ := applyAircraftChanges_shape ch sid s
  rw [h]

theorem applyAircraftChanges_llmCalls (ch : ParamChange) (sid : Nat) (s : Store) :
    (applyAircraftChanges ch sid s).llmCalls = s.llmCalls := by
  obtain ⟨a, h⟩ := applyAircraftChanges_shape ch sid s
  rw [h]

theorem applyWeatherChange_nodes (ch : ParamChange) (sid : Nat) (s : Store) :
    (applyWeatherChange ch sid s).decision_nodes = s.decision_nodes := by
  obtain ⟨w, h⟩ := applyWeatherChange_shape ch sid s
  rw [h]

theorem applyWeatherChange_decisions (ch : ParamChange) (sid : Nat) (s : Store) :
    (applyWeatherChange ch sid s).decisions = s.decisions := by
  obtain ⟨w, h⟩ := applyWeatherChange_shape ch sid s
  rw [h]

theorem applyWeatherChange_responses (ch : ParamChange) (sid : Nat) (s : Store) :
    (applyWeatherChange ch sid s).decision_responses = s.decision_responses := by
  obtain ⟨w, h⟩ := applyWeatherChange_shape ch sid s
  rw [h]

theorem applyWeatherChange_llmCalls (ch : ParamChange) (sid : Nat) (s : Store) :
    (applyWeatherChange ch sid s).llmCalls = s.llmCalls := by
  obtain ⟨w, h⟩ := applyWeatherChange_shape ch sid s
  rw [h]

theorem insertNextDecision_nodes (sid : Nat) (nd : NextDecisionSpec) (s : Store) :
    (insertNextDecision sid nd s).1.decision_nodes = s.decision_nodes := by
  obtain ⟨d, o, n, h⟩ := insertNextDecision_shape sid nd s
  rw [h]

theorem insertNextDecision_queue (sid : Nat) (nd : NextDecisionSpec) (s : Store) :
    (insertNextDecision sid nd s).1.communications_queue =
      s.communications_queue := by
  obtain ⟨d, o, n, h⟩ := insertNextDecision_shape sid nd s
  rw [h]

theorem insertNextDecision_comms (sid : Nat) (nd : NextDecisionSpec) (s : Store) :
    (insertNextDecision sid nd s).1.communications = s.communications := by
  obtain ⟨d, o, n, h⟩ := insertNextDecision_shape sid nd s
  rw [h]

/-- Every row created by the insertion loop starts unsent. -/
theorem mkQueueItems_unsent (sid : Nat) (cs : List CommSpec) (n : Nat) :
    ∀ c ∈ mkQueueItems sid cs n, c.is_sent = false := by
  induction cs generalizing n with
  | nil => intro c hc; cases hc
  | cons a rest ih =>
    intro c hc
    rcases List.mem_cons.mp hc with rfl | hrest
    · rfl
    · exact ih (n + 1) c hrest

/-- Every row created by the insertion loop has id at least the starting
counter. -/
theorem mkQueueItems_id_ge (sid : Nat) (cs : List CommSpec) (n : Nat) :
    ∀ c ∈ mkQueueItems sid cs n, n ≤ c.id := by
  induction cs generalizing n with
  | nil => intro c hc; cases hc
  | cons a rest ih =>
    intro c hc
    rcases List.mem_cons.mp hc with rfl | hrest
    · exact Nat.le_refl n
    · exact Nat.le_of_succ_le (ih (n + 1) c hrest)

/-- The created rows have pairwise distinct ids. -/
theorem mkQueueItems_ids_nodup (sid : Nat) (cs : List CommSpec) (n : Nat) :
    ((mkQueueItems sid cs n).map (fun c => c.id)).Nodup := by
  induction cs generalizing n with
  | nil => simp [mkQueueItems]
  | cons a rest ih =>
    rw [mkQueueItems, List.map_cons, List.nodup_cons]
    refine ⟨?_, ih (n + 1)⟩
    intro hmem
    obtain ⟨c, hc, hcid⟩ := List.mem_map.mp hmem
    have := mkQueueItems_id_ge sid rest (n + 1) c hc
    rw [hcid] at this
    exact Nat.not_succ_le_self n (by simpa [mkQueueItem] using this)

theorem updateWhere_cons (p : α → Bool) (f : α → α) (a : α) (l : List α) :
    updateWhere p f (a :: l) = (if p a then f a else a) :: updateWhere p f l :=
  rfl

/-- Firing a fresh queue row (its id appears exactly once, at the given
position) marks that row sent and appends its history copy. -/
theorem fireComm_fresh (s : Store) (pre rest : List CommQueueItem)
    (it : CommQueueItem) (hq : s.communications_queue = pre ++ it :: rest)
    (hpre : ∀ c ∈ pre, c.id ≠ it.id) (hrest : ∀ c ∈ rest, c.id ≠ it.id) :
    fireComm s it.id =
      { s with
        communications_queue := pre ++ ({ it with is_sent := true } :: rest)
        communications := s.communications ++ [it.toHistory] } := by
  have hupd : updateWhere (fun c => c.id == it.id)
      (fun c => { c with is_sent := true }) s.communications_queue =
      pre ++ ({ it with is_sent := true } :: rest) := by
    rw [hq, updateWhere_append,
      updateWhere_eq_self _ _ pre
        (fun c hc => beq_eq_false_iff_ne.mpr (hpre c hc)),
      updateWhere_cons,
      updateWhere_eq_self _ _ rest
        (fun c hc => beq_eq_false_iff_ne.mpr (hrest c hc)),
      if_pos (beq_self_eq_true it.id)]
  have hfil : (pre ++ ({ it with is_sent := true } :: rest)).filter
      (fun c => c.id == it.id) = [{ it with is_sent := true }] := by
    rw [List.filter_append]
    rw [List.filter_eq_nil.mpr
      (fun c hc hb => hpre c hc (beq_iff_eq.mp hb))]
    rw [List.filter_cons]
    simp only [show ({ it with is_sent := true } : CommQueueItem).id = it.id
      from rfl, beq_self_eq_true, if_true]
    rw [List.filter_eq_nil.mpr
      (fun c hc hb => hrest c hc (beq_iff_eq.mp hb))]
    rfl
  unfold fireComm
  dsimp only
  rw [hupd, hfil]
  rfl

/-- Delivering a block of freshly inserted rows (all ids new and
pairwise distinct) marks each row sent and appends their history copies
in order. -/
theorem foldl_fireComm_fresh (items : List CommQueueItem)
    (pre : List CommQueueItem) (s : Store)
    (hq : s.communications_queue = pre ++ items)
    (hdisj : ∀ c ∈ pre, ∀ d ∈ items, c.id ≠ d.id)
    (hnd : (items.map (fun c => c.id)).Nodup) :
    ((items.map (fun c => c.id)).foldl fireComm s).communications_queue =
      pre ++ items.map (fun c => { c with is_sent := true }) ∧
    ((items.map (fun c => c.id)).foldl fireComm s).communications =
      s.communications ++ items.map CommQueueItem.toHistory := by
  induction items generalizing pre s with
  | nil => simp [hq]
  | cons it rest ih =>
    rw [List.map_cons, List.nodup_cons] at hnd
    have hpre : ∀ c ∈ pre, c.id ≠ it.id := fun c hc =>
      hdisj c hc it (List.mem_cons_self it rest)
    have hrest : ∀ c ∈ rest, c.id ≠ it.id := by
      intro c hc he
      exact hnd.1 (he ▸ List.mem_map_of_mem (fun c => c.id) hc)
    have hfc := fireComm_fresh s pre rest it hq hpre hrest
    rw [List.map_cons, List.foldl_cons, hfc]
    have ihres := ih (pre ++ [{ it with is_sent := true }])
      { s with
        communications_queue := pre ++ ({ it with is_sent := true } :: rest)
        communications := s.communications ++ [it.toHistory] }
      (by simp)
      (by
        intro c hc d hd
        rcases List.mem_append.mp hc with hcp | hcs
        · exact hdisj c hcp d (List.mem_cons_of_mem it hd)
        · have : c = { it with is_sent := true } := List.mem_singleton.mp hcs
          rw [this]
          show it.id ≠ d.id
          exact fun he => hnd.1 (he ▸ List.mem_map_of_mem (fun c => c.id) hd))
      hnd.2
    refine ⟨?_, ?_⟩
    · rw [ihres.1]
      simp
    · rw [ihres.2]
      simp

/-- The generated-decision insert touches only decisions, options and the
id counter. -/
theorem insertGeneratedDecision_shape (sid : Nat) (nd? : Option NextDecisionSpec)
    (s : Store) : ∃ d o n, (insertGeneratedDecision sid nd? s).1 =
      { s with decisions := d, decision_options := o, nextId := n } := by
  cases nd? with
  | some nd =>
      obtain ⟨d, o, n, h⟩ := insertNextDecision_shape sid nd s
      exact ⟨d, o, n, h⟩
  | none => exact ⟨s.decisions, s.decision_options, s.nextId, rfl⟩

theorem insertGeneratedDecision_nodes (sid : Nat) (nd? : Option NextDecisionSpec)
    (s : Store) : (insertGeneratedDecision sid nd? s).1.decision_nodes =
      s.decision_nodes := by
  obtain ⟨d, o, n, h⟩ := insertGeneratedDecision_shape sid nd? s
  rw [h]

theorem insertGeneratedDecision_queue (sid : Nat) (nd? : Option NextDecisionSpec)
    (s : Store) : (insertGeneratedDecision sid nd? s).1.communications_queue =
      s.communications_queue := by
  obtain ⟨d, o, n, h⟩ := insertGeneratedDecision_shape sid nd? s
  rw [h]

theorem insertGeneratedDecision_comms (sid : Nat) (nd? : Option NextDecisionSpec)
    (s : Store) : (insertGeneratedDecision sid nd? s).1.communications =
      s.communications := by
  obtain ⟨d, o, n, h⟩ := insertGeneratedDecision_shape sid nd? s
  rw [h]

/-- The generated parameter-change application touches only aircraft rows. -/
theorem applyGeneratedChanges_shape (pc : Option ParamChange) (sid : Nat)
    (s : Store) : ∃ a, applyGeneratedChanges pc sid s =
      { s with aircraft_positions := a } := by
  cases pc with
  | some ch => exact applyAircraftChanges_shape ch sid s
  | none => exact ⟨s.aircraft_positions, rfl⟩

theorem applyGeneratedChanges_nodes (pc : Option ParamChange) (sid : Nat)
    (s : Store) : (applyGeneratedChanges pc sid s).decision_nodes =
      s.decision_nodes := by
  obtain ⟨a, h⟩ := applyGeneratedChanges_shape pc sid s
  rw [h]

theorem applyGeneratedChanges_queue (pc : Option ParamChange) (sid : Nat)
    (s : Store) : (applyGeneratedChanges pc sid s).communications_queue =
      s.communications_queue := by
  obtain ⟨a, h⟩ := applyGeneratedChanges_shape pc sid s
  rw [h]

theorem applyGeneratedChanges_comms (pc : Option ParamChange) (sid : Nat)
    (s : Store) : (applyGeneratedChanges pc sid s).communications =
      s.communications := by
  obtain ⟨a, h⟩ := applyGeneratedChanges_shape pc sid s
  rw [h]

/-- The immediate-activation step touches only decisions. -/
theorem activateImmediateDecision_shape (nd? : Option Nat) (tt : ℚ) (s : Store) :
    ∃ d, activateImmediateDecision nd? tt s = { s with decisions := d } := by
  cases nd? with
  | some ndid =>
      by_cases htt : tt = 0
      · refine ⟨updateWhere (fun (d : Decision) => d.id == ndid)
          (fun d => { d with is_active := true }) s.decisions, ?_⟩
        unfold activateImmediateDecision
        dsimp only
        rw [if_pos htt]
      · refine ⟨s.decisions, ?_⟩
        unfold activateImmediateDecision
        dsimp only
        rw [if_neg htt]
  | none => exact ⟨s.decisions, rfl⟩

theorem activateImmediateDecision_nodes (nd? : Option Nat) (tt : ℚ) (s : Store) :
    (activateImmediateDecision nd? tt s).decision_nodes = s.decision_nodes := by
  obtain ⟨d, h⟩ := activateImmediateDecision_shape nd? tt s
  rw [h]

theorem activateImmediateDecision_queue (nd? : Option Nat) (tt : ℚ) (s : Store) :
    (activateImmediateDecision nd? tt s).communications_queue =
      s.communications_queue := by
  obtain ⟨d, h⟩ := activateImmediateDecision_shape nd? tt s
  rw [h]

theorem activateImmediateDecision_comms (nd? : Option Nat) (tt : ℚ) (s : Store) :
    (activateImmediateDecision nd? tt s).communications = s.communications := by
  obtain ⟨d, h⟩ := activateImmediateDecision_shape nd? tt s
  rw [h]

/-- Successful activation of a node whose id resolves to exactly one row:
the targeted node rows are marked active, the node's decision (if any) is
activated, and nothing is recorded or generated — in particular no
language-model call is made. -/
theorem activateDecisionNode_ok_spec (nid : Nat) (s : Store)
    (node : DecisionNode)
    (hfind : s.decision_nodes.filter (fun n => n.id == nid) = [node]) :
    ∃ s', activateDecisionNode nid s = .ok s' ∧
      s'.decision_nodes = updateWhere (fun n => n.id == nid)
        (fun n => { n with is_active := true }) s.decision_nodes ∧
      s'.decisions = (match node.decision_id with
        | some d2 => updateWhere (fun d => d.id == d2)
            (fun d => { d with is_active := true }) s.decisions
        | none => s.decisions) ∧
      s'.decision_responses = s.decision_responses ∧
      s'.llmCalls = s.llmCalls := by
  have hstrict : strictSingle (fun n => n.id == nid) s.decision_nodes =
      .ok node := by
    unfold strictSingle
    rw [hfind]
  unfold activateDecisionNode
  rw [hstrict]
  dsimp only
  cases hdec : node.decision_id with
  | some d2 =>
      refine ⟨_, rfl, ?_, ?_, ?_, ?_⟩
      · simp only [applyWeatherChange_nodes, applyAircraftChanges_nodes,
          foldl_fireComm_nodes]
      · simp only [applyWeatherChange_decisions, applyAircraftChanges_decisions,
          foldl_fireComm_decisions]
      · simp only [applyWeatherChange_responses, applyAircraftChanges_responses,
          foldl_fireComm_responses]
      · simp only [applyWeatherChange_llmCalls, applyAircraftChanges_llmCalls,
          foldl_fireComm_llmCalls]
  | none =>
      refine ⟨_, rfl, ?_, ?_, ?_, ?_⟩
      · simp only [applyWeatherChange_nodes, applyAircraftChanges_nodes,
          foldl_fireComm_nodes]
      · simp only [applyWeatherChange_decisions, applyAircraftChanges_decisions,
          foldl_fireComm_decisions]
      · simp only [applyWeatherChange_responses, applyAircraftChanges_responses,
          foldl_fireComm_responses]
      · simp only [applyWeatherChange_llmCalls, applyAircraftChanges_llmCalls,
          foldl_fireComm_llmCalls]

/-- A successful `generateNextNode` is a successful JSON extraction
followed by the post-parse tail on the store with the model call counted. -/
theorem generateNextNode_ok (env : LlmEnv) (sid did oid : Nat)
    (pid : Option Nat) (s s' : Store) (r : Option Nat)
    (h : generateNextNode env sid did oid pid s = .ok (s', r)) :
    ∃ str, extractJsonFromResponse env.jsonOk (env.respond s.llmCalls) =
        .ok str ∧
      s' = (generateCore sid oid pid (env.decodeNext str)
        { s with llmCalls := s.llmCalls + 1 }).1 ∧
      r = some (generateCore sid oid pid (env.decodeNext str)
        { s with llmCalls := s.llmCalls + 1 }).2 := by
  unfold generateNextNode at h
  dsimp only at h
  split at h
  · exact Except.noConfusion h
  split at h
  · exact Except.noConfusion h
  split at h
  · exact Except.noConfusion h
  split at h
  · exact Except.noConfusion h
  split at h
  · exact Except.noConfusion h
  rename_i str heq
  simp only [Except.ok.injEq, Prod.mk.injEq] at h
  exact ⟨str, heq, h.1.symm, h.2.symm⟩

/-- The post-parse tail appends exactly one node to the scenario's node
rows, and that node is created active for this scenario. -/
theorem generateCore_nodes (sid oid : Nat) (pid : Option Nat) (ns : NextState)
    (s0 : Store) :
    ∃ node : DecisionNode,
      (generateCore sid oid pid ns s0).1.decision_nodes =
        s0.decision_nodes ++ [node] ∧
      node.scenario_id = sid ∧ node.is_active = true := by
  unfold generateCore
  dsimp only
  simp only [foldl_fireComm_nodes, activateImmediateDecision_nodes,
    applyGeneratedChanges_nodes]
  exact ⟨_, by rw [insertGeneratedDecision_nodes, insertComms_spec], rfl, rfl⟩

/-- The post-parse tail inserts its generated communications unsent and,
before returning, marks every one of them sent and appends their history
copies (provided all pre-existing queue ids are below the id counter). -/
theorem generateCore_comms (sid oid : Nat) (pid : Option Nat) (ns : NextState)
    (s0 : Store) (hlt : ∀ c ∈ s0.communications_queue, c.id < s0.nextId) :
    (generateCore sid oid pid ns s0).1.communications_queue =
      s0.communications_queue ++
        (mkQueueItems sid ns.communications s0.nextId).map
          (fun c => { c with is_sent := true }) ∧
    (generateCore sid oid pid ns s0).1.communications =
      s0.communications ++
        (mkQueueItems sid ns.communications s0.nextId).map
          CommQueueItem.toHistory := by
  have hdisj : ∀ c ∈ s0.communications_queue,
      ∀ d ∈ mkQueueItems sid ns.communications s0.nextId, c.id ≠ d.id := by
    intro c hc d hd
    have h1 := hlt c hc
    have h2 := mkQueueItems_id_ge sid ns.communications s0.nextId d hd
    omega
  have hnodup := mkQueueItems_ids_nodup sid ns.communications s0.nextId
  unfold generateCore
  dsimp only
  rw [insertComms_spec]
  dsimp only
  constructor
  · exact (foldl_fireComm_fresh _ s0.communications_queue _
      (by simp only [activateImmediateDecision_queue, applyGeneratedChanges_queue,
        insertGeneratedDecision_queue]) hdisj hnodup).1
  · refine ((foldl_fireComm_fresh _ s0.communications_queue _
      (by simp only [activateImmediateDecision_queue, applyGeneratedChanges_queue,
        insertGeneratedDecision_queue]) hdisj hnodup).2).trans ?_
    simp only [activateImmediateDecision_comms, applyGeneratedChanges_comms,
      insertGeneratedDecision_comms]

/-- Row updates that keep the id field keep the id column. -/
theorem map_id_updateWhere (p : DecisionNode → Bool)
    (f : DecisionNode → DecisionNode) (hf : ∀ x, (f x).id = x.id)
    (l : List DecisionNode) :
    (updateWhere p f l).map (fun n => n.id) = l.map (fun n => n.id) := by
  unfold updateWhere
  rw [List.map_map]
  apply List.map_congr_left
  intro x hx
  by_cases hp : p x = true <;> simp [hp, hf]

/-- Deactivating a node never leaves it in the active filter. -/
theorem filter_active_deactivate (sid : Nat) (cn : DecisionNode)
    (l : List DecisionNode) (hf : l.filter (isActiveNodeOf sid) = [cn]) :
    (updateWhere (fun n => n.id == cn.id)
      (fun n => { n with is_active := false }) l).filter
        (isActiveNodeOf sid) = [] := by
  apply List.filter_eq_nil.mpr
  intro y hy
  obtain ⟨x, hx, hxy⟩ := mem_updateWhere _ _ _ _ hy
  by_cases hpx : isActiveNodeOf sid x = true
  · have hxcn : x = cn := by
      have : x ∈ l.filter (isActiveNodeOf sid) := List.mem_filter.mpr ⟨hx, hpx⟩
      rw [hf] at this
      exact List.mem_singleton.mp this
    have hcond : (x.id == cn.id) = true := by rw [hxcn]; exact beq_self_eq_true _
    rw [hxy, hcond, if_pos rfl]
    simp [isActiveNodeOf]
  · by_cases hcond : (x.id == cn.id) = true
    · rw [hxy, hcond, if_pos rfl]
      simp [isActiveNodeOf]
    · rw [Bool.not_eq_true] at hcond
      rw [hxy, hcond]
      simp only [Bool.false_eq_true, if_false]
      exact fun hc => hpx hc

/-- Activating the rows of one id adds at most that id's row count to the
active filter. -/
theorem length_filter_active_activate_le (sid i : Nat) (l : List DecisionNode) :
    ((updateWhere (fun n => n.id == i)
      (fun n => { n with is_active := true }) l).filter
        (isActiveNodeOf sid)).length ≤
      (l.filter (isActiveNodeOf sid)).length +
        (l.filter (fun n => n.id == i)).length := by
  induction l with
  | nil => simp [updateWhere]
  | cons a t ih =>
    rw [updateWhere_cons, List.filter_cons, List.filter_cons, List.filter_cons]
    by_cases hai : (a.id == i) = true
    · simp only [hai, if_true]
      by_cases hpact : isActiveNodeOf sid { a with is_active := true } = true <;>
        by_cases hpa : isActiveNodeOf sid a = true <;>
          simp [hpact, hpa] <;> omega
    · rw [Bool.not_eq_true] at hai
      simp only [hai, Bool.false_eq_true, if_false]
      by_cases hpa : isActiveNodeOf sid a = true <;> simp [hpa] <;> omega

/-- The post-parse tail adds exactly one active node for this scenario. -/
theorem activeNodeCount_generateCore_le (sid oid : Nat) (pid : Option Nat)
    (ns : NextState) (s0 : Store) :
    activeNodeCount (generateCore sid oid pid ns s0).1 sid ≤
      (s0.decision_nodes.filter (isActiveNodeOf sid)).length + 1 := by
  obtain ⟨node, hnodes, hsc, hact⟩ := generateCore_nodes sid oid pid ns s0
  unfold activeNodeCount
  rw [hnodes, List.filter_append, List.length_append]
  have hone : ([node].filter (isActiveNodeOf sid)).length ≤ 1 := by
    rw [List.filter_cons]
    split <;> simp
  omega

/-- C3 amended: `processDecision` itself preserves the at-most-one-active
invariant — it deactivates the current node before activating an existing
child or creating the generated node (which is born active) — so states
reached through decision processing alone keep at most one active node per
scenario; the invariant is broken only by `checkTimeTriggers`, which
activates every due node without deactivating the current one (see the
counterexample). -/
theorem processDecision_preserves_unique_active (env : LlmEnv)
    (sid did oid : Nat) (s s' : Store) (r : Option Nat)
    (hnd : (s.decision_nodes.map (fun n => n.id)).Nodup)
    (hle : activeNodeCount s sid ≤ 1)
    (h : processDecision env sid did oid s = .ok (s', r)) :
    activeNodeCount s' sid ≤ 1 := by
  unfold processDecision at h
  dsimp only at h
  cases hcur : singleOrNone (isActiveNodeOf sid)
      (deactivateDecision did (recordResponse sid did oid s)).decision_nodes with
  | none =>
      rw [hcur] at h
      dsimp only at h
      obtain ⟨str, hstr, hs', hr⟩ := generateNextNode_ok _ _ _ _ _ _ _ _ h
      have hzero : (s.decision_nodes.filter (isActiveNodeOf sid)).length = 0 := by
        have hne1 : (s.decision_nodes.filter (isActiveNodeOf sid)).length ≠ 1 :=
          singleOrNone_eq_none_length _ _ hcur
        have hle2 : (s.decision_nodes.filter (isActiveNodeOf sid)).length ≤ 1 := hle
        omega
      subst hs'
      refine le_trans (activeNodeCount_generateCore_le sid oid _
        (env.decodeNext str) _) ?_
      show (s.decision_nodes.filter (isActiveNodeOf sid)).length + 1 ≤ 1
      omega
  | some cn =>
      rw [hcur] at h
      dsimp only at h
      have hfl : s.decision_nodes.filter (isActiveNodeOf sid) = [cn] :=
        (singleOrNone_eq_some_iff (isActiveNodeOf sid) s.decision_nodes cn).mp hcur
      have hS3empty : ((updateWhere (fun (n : DecisionNode) => n.id == cn.id)
          (fun n => { n with is_active := false }) s.decision_nodes).filter
            (isActiveNodeOf sid)).length = 0 := by
        rw [filter_active_deactivate sid cn s.decision_nodes hfl]
        rfl
      cases hnext : singleOrNone
          (fun (n : DecisionNode) => n.scenario_id == sid &&
            n.parent_node_id == some cn.id && n.option_id == some oid)
          (deactivateNode cn.id (deactivateDecision did
            (recordResponse sid did oid s))).decision_nodes with
      | none =>
          rw [hnext] at h
          dsimp only at h
          obtain ⟨str, hstr, hs', hr⟩ := generateNextNode_ok _ _ _ _ _ _ _ _ h
          subst hs'
          refine le_trans (activeNodeCount_generateCore_le sid oid _
            (env.decodeNext str) _) ?_
          show ((updateWhere (fun (n : DecisionNode) => n.id == cn.id)
            (fun n => { n with is_active := false }) s.decision_nodes).filter
              (isActiveNodeOf sid)).length + 1 ≤ 1
          omega
      | some nn =>
          rw [hnext] at h
          dsimp only at h
          have hfilnn : (updateWhere (fun (n : DecisionNode) => n.id == cn.id)
              (fun n => { n with is_active := false })
              s.decision_nodes).filter
                (fun n => n.scenario_id == sid &&
                  n.parent_node_id == some cn.id && n.option_id == some oid) =
              [nn] :=
            (singleOrNone_eq_some_iff _ _ nn).mp hnext
          have hmem : nn ∈ updateWhere (fun (n : DecisionNode) => n.id == cn.id)
              (fun n => { n with is_active := false }) s.decision_nodes :=
            List.mem_of_mem_filter
              (by rw [hfilnn]; exact List.mem_singleton_self nn)
          have hndS3 : ((updateWhere (fun (n : DecisionNode) => n.id == cn.id)
              (fun n => { n with is_active := false })
              s.decision_nodes).map (fun n => n.id)).Nodup := by
            rw [map_id_updateWhere (fun (n : DecisionNode) => n.id == cn.id)
              (fun n => { n with is_active := false }) (fun x => rfl)
              s.decision_nodes]
            exact hnd
          have hfind : (updateWhere (fun (n : DecisionNode) => n.id == cn.id)
              (fun n => { n with is_active := false })
              s.decision_nodes).filter (fun n2 => n2.id == nn.id) = [nn] :=
            filter_eq_singleton_of_nodup (fun n => n.id) _ nn hndS3 hmem
          obtain ⟨s4', hok, hnodes4, hdecs4, hresp4, hllm4⟩ :=
            activateDecisionNode_ok_spec nn.id
              (deactivateNode cn.id (deactivateDecision did
                (recordResponse sid did oid s))) nn hfind
          rw [hok] at h
          dsimp only at h
          simp only [Except.ok.injEq, Prod.mk.injEq] at h
          obtain ⟨hs4, hr⟩ := h
          subst hs4
          unfold activeNodeCount
          rw [hnodes4]
          have hb := length_filter_active_activate_le sid nn.id
            (deactivateNode cn.id (deactivateDecision did
              (recordResponse sid did oid s))).decision_nodes
          have h1 : ((deactivateNode cn.id (deactivateDecision did
              (recordResponse sid did oid s))).decision_nodes.filter
                (isActiveNodeOf sid)).length = 0 := hS3empty
          have h2 : ((deactivateNode cn.id (deactivateDecision did
              (recordResponse sid did oid s))).decision_nodes.filter
                (fun n => n.id == nn.id)).length = 1 := by
            have := hfind
            rw [show (deactivateNode cn.id (deactivateDecision did
              (recordResponse sid did oid s))).decision_nodes.filter
                (fun n => n.id == nn.id) =
              (updateWhere (fun (n : DecisionNode) => n.id == cn.id)
                (fun n => { n with is_active := false })
                s.decision_nodes).filter (fun n2 => n2.id == nn.id) from rfl]
            rw [this]
            rfl
          omega

/-- After the decision deactivation every row with the submitted id is
inactive. -/
theorem updateWhere_deactivated (did : Nat) (l : List Decision) :
    ∀ d ∈ updateWhere (fun (d : Decision) => d.id == did)
      (fun d => { d with is_active := false }) l,
      d.id = did → d.is_active = false := by
  intro d hd hidd
  obtain ⟨x, hx, hdx⟩ := mem_updateWhere _ _ _ _ hd
  by_cases hp : (x.id == did) = true
  · rw [if_pos hp] at hdx
    rw [hdx]
  · rw [Bool.not_eq_true] at hp
    rw [hp] at hdx
    simp only [Bool.false_eq_true, if_false] at hdx
    rw [hdx] at hidd
    simp [hidd] at hp

/-- Activating a different decision id keeps the submitted decision
inactive. -/
theorem act_other_preserves_inactive (d2 did : Nat) (hne2 : d2 ≠ did)
    (l : List Decision)
    (hl : ∀ d ∈ l, d.id = did → d.is_active = false) :
    ∀ d ∈ updateWhere (fun (d : Decision) => d.id == d2)
      (fun d => { d with is_active := true }) l,
      d.id = did → d.is_active = false := by
  intro d hd hidd
  obtain ⟨y, hy, hdy⟩ := mem_updateWhere _ _ _ _ hd
  by_cases hp : (y.id == d2) = true
  · rw [if_pos hp] at hdy
    have hyd2 : y.id = d2 := beq_iff_eq.mp hp
    rw [hdy] at hidd
    exact absurd (by rw [← hyd2]; exact hidd) hne2
  · rw [Bool.not_eq_true] at hp
    rw [hp] at hdy
    simp only [Bool.false_eq_true, if_false] at hdy
    rw [hdy]
    exact hl y hy (by rw [hdy] at hidd; exact hidd)

/-- Deactivating one node id and then activating a different one leaves
every row of the first id inactive. -/
theorem deact_then_act_first_inactive (cnid childid : Nat)
    (hnecc : childid ≠ cnid) (l : List DecisionNode) :
    ∀ n ∈ updateWhere (fun (n : DecisionNode) => n.id == childid)
        (fun n => { n with is_active := true })
        (updateWhere (fun (n : DecisionNode) => n.id == cnid)
          (fun n => { n with is_active := false }) l),
      n.id = cnid → n.is_active = false := by
  intro n hn hid
  obtain ⟨y, hy, hny⟩ := mem_updateWhere _ _ _ _ hn
  obtain ⟨x, hx, hyx⟩ := mem_updateWhere _ _ _ _ hy
  by_cases hxc : (x.id == cnid) = true
  · rw [if_pos hxc] at hyx
    have hyid : y.id = cnid := by rw [hyx]; exact beq_iff_eq.mp hxc
    have hyich : (y.id == childid) = false :=
      beq_eq_false_iff_ne.mpr (by rw [hyid]; exact fun he => hnecc he.symm)
    rw [hyich] at hny
    simp only [Bool.false_eq_true, if_false] at hny
    rw [hny, hyx]
  · rw [Bool.not_eq_true] at hxc
    rw [hxc] at hyx
    simp only [Bool.false_eq_true, if_false] at hyx
    by_cases hych : (y.id == childid) = true
    · rw [if_pos hych] at hny
      have : n.id = childid := by rw [hny]; exact beq_iff_eq.mp hych
      exact absurd (by rw [← this]; exact hid) hnecc
    · rw [Bool.not_eq_true] at hych
      rw [hych] at hny
      simp only [Bool.false_eq_true, if_false] at hny
      rw [hny, hyx] at hid
      simp [hid] at hxc

/-- After the activation every row with the child id is active. -/
theorem deact_then_act_second_active (cnid childid : Nat)
    (hnecc : childid ≠ cnid) (l : List DecisionNode) :
    ∀ n ∈ updateWhere (fun (n : DecisionNode) => n.id == childid)
        (fun n => { n with is_active := true })
        (updateWhere (fun (n : DecisionNode) => n.id == cnid)
          (fun n => { n with is_active := false }) l),
      n.id = childid → n.is_active = true := by
  intro n hn hid
  obtain ⟨y, hy, hny⟩ := mem_updateWhere _ _ _ _ hn
  by_cases hych : (y.id == childid) = true
  · rw [if_pos hych] at hny
    rw [hny]
  · rw [Bool.not_eq_true] at hych
    rw [hych] at hny
    simp only [Bool.false_eq_true, if_false] at hny
    rw [hny] at hid
    simp [hid] at hych

/-- C4: when a child node for (current active node, chosen option) already
exists, `processDecision` records the DecisionResponse, deactivates the
submitted decision, deactivates the previously-active node, and activates
the pre-existing child — and the language-model call counter is unchanged:
no model call is made on this path. -/
theorem processDecision_existing_child_spec (env : LlmEnv)
    (sid did oid : Nat) (s : Store) (cn child : DecisionNode)
    (hnd : (s.decision_nodes.map (fun n => n.id)).Nodup)
    (hcn : s.decision_nodes.filter (isActiveNodeOf sid) = [cn])
    (hchild : s.decision_nodes.filter
      (fun n => n.scenario_id == sid && n.parent_node_id == some cn.id &&
        n.option_id == some oid) = [child])
    (hne : child.id ≠ cn.id)
    (hdid : ∀ d2, child.decision_id = some d2 → d2 ≠ did) :
    ∃ s', processDecision env sid did oid s = .ok (s', some child.id) ∧
      s'.llmCalls = s.llmCalls ∧
      s'.decision_responses = s.decision_responses ++
        [{ scenario_id := sid, decision_id := did, option_id := oid }] ∧
      (∀ d ∈ s'.decisions, d.id = did → d.is_active = false) ∧
      (∀ n ∈ s'.decision_nodes, n.id = cn.id → n.is_active = false) ∧
      (∀ n ∈ s'.decision_nodes, n.id = child.id → n.is_active = true) := by
  have hcur : singleOrNone (isActiveNodeOf sid)
      (deactivateDecision did (recordResponse sid did oid s)).decision_nodes =
      some cn :=
    (singleOrNone_eq_some_iff (isActiveNodeOf sid) s.decision_nodes cn).mpr hcn
  have hinv : ∀ x : DecisionNode,
      ((if (x.id == cn.id) then { x with is_active := false } else
        x).scenario_id == sid &&
        (if (x.id == cn.id) then { x with is_active := false } else
          x).parent_node_id == some cn.id &&
        (if (x.id == cn.id) then { x with is_active := false } else
          x).option_id == some oid) =
      (x.scenario_id == sid && x.parent_node_id == some cn.id &&
        x.option_id == some oid) := by
    intro x
    by_cases hp : (x.id == cn.id) = true <;> simp [hp]
  have hchild3list : (updateWhere (fun (n : DecisionNode) => n.id == cn.id)
      (fun n => { n with is_active := false }) s.decision_nodes).filter
        (fun n => n.scenario_id == sid && n.parent_node_id == some cn.id &&
          n.option_id == some oid) = [child] := by
    rw [filter_updateWhere_comm _ _ _ _ hinv, hchild]
    have hb : (child.id == cn.id) = false := beq_eq_false_iff_ne.mpr hne
    simp [hb]
    exact fun hcc => absurd hcc hne
  have hnext : singleOrNone
      (fun (n : DecisionNode) => n.scenario_id == sid &&
        n.parent_node_id == some cn.id && n.option_id == some oid)
      (deactivateNode cn.id (deactivateDecision did
        (recordResponse sid did oid s))).decision_nodes = some child :=
    (singleOrNone_eq_some_iff _ _ child).mpr hchild3list
  have hmem : child ∈ updateWhere (fun (n : DecisionNode) => n.id == cn.id)
      (fun n => { n with is_active := false }) s.decision_nodes :=
    List.mem_of_mem_filter
      (by rw [hchild3list]; exact List.mem_singleton_self child)
  have hndS3 : ((updateWhere (fun (n : DecisionNode) => n.id == cn.id)
      (fun n => { n with is_active := false })
      s.decision_nodes).map (fun n => n.id)).Nodup := by
    rw [map_id_updateWhere (fun (n : DecisionNode) => n.id == cn.id)
      (fun n => { n with is_active := false }) (fun x => rfl) s.decision_nodes]
    exact hnd
  have hfind : (updateWhere (fun (n : DecisionNode) => n.id == cn.id)
      (fun n => { n with is_active := false })
      s.decision_nodes).filter (fun n2 => n2.id == child.id) = [child] :=
    filter_eq_singleton_of_nodup (fun n => n.id) _ child hndS3 hmem
  obtain ⟨s4, hok, hnodes4, hdecs4, hresp4, hllm4⟩ :=
    activateDecisionNode_ok_spec child.id
      (deactivateNode cn.id (deactivateDecision did
        (recordResponse sid did oid s))) child hfind
  refine ⟨s4, ?_, hllm4, hresp4, ?_, ?_, ?_⟩
  · unfold processDecision
    dsimp only
    rw [hcur]
    dsimp only
    rw [hnext]
    dsimp only
    rw [hok]
  · intro d hd hidd
    rw [hdecs4] at hd
    cases hcd : child.decision_id with
    | none =>
        rw [hcd] at hd
        dsimp only at hd
        exact updateWhere_deactivated did s.decisions d hd hidd
    | some d2 =>
        rw [hcd] at hd
        dsimp only at hd
        exact act_other_preserves_inactive d2 did (hdid d2 hcd) _
          (updateWhere_deactivated did s.decisions) d hd hidd
  · intro n hn hid
    rw [hnodes4] at hn
    exact deact_then_act_first_inactive cn.id child.id hne s.decision_nodes
      n hn hid
  · intro n hn hid
    rw [hnodes4] at hn
    exact deact_then_act_second_active cn.id child.id hne s.decision_nodes
      n hn hid

/-- C10: every communication synthesized during a dynamic decision-tree
advance is inserted into the queue with is_sent = false and, before the
call returns, is marked is_sent = true in the queue and copied into the
Communication history — it is delivered within the same call and never
waits for the Tick Processor. -/
theorem generateNextNode_comms_delivered (env : LlmEnv) (sid did oid : Nat)
    (pid : Option Nat) (s s' : Store) (r : Option Nat) (str : String)
    (hlt : ∀ c ∈ s.communications_queue, c.id < s.nextId)
    (hstr : extractJsonFromResponse env.jsonOk (env.respond s.llmCalls) =
      .ok str)
    (h : generateNextNode env sid did oid pid s = .ok (s', r)) :
    (∀ c ∈ mkQueueItems sid (env.decodeNext str).communications s.nextId,
      c.is_sent = false) ∧
    s'.communications_queue = s.communications_queue ++
      (mkQueueItems sid (env.decodeNext str).communications s.nextId).map
        (fun c => { c with is_sent := true }) ∧
    s'.communications = s.communications ++
      (mkQueueItems sid (env.decodeNext str).communications s.nextId).map
        CommQueueItem.toHistory := by
  obtain ⟨str2, hstr2, hs', hr⟩ := generateNextNode_ok env sid did oid pid s s' r h
  have hstreq : str2 = str := Except.ok.inj (hstr2.symm.trans hstr)
  subst hstreq
  subst hs'
  have hcore := generateCore_comms sid oid pid (env.decodeNext str2)
    { s with llmCalls := s.llmCalls + 1 } hlt
  exact ⟨mkQueueItems_unsent sid (env.decodeNext str2).communications s.nextId,
    hcore.1, hcore.2⟩

theorem generateNextNode_comms_delivered_witness :
    (∀ c ∈ mkQueueItems 1 (c10Env.decodeNext "r").communications
        treeStore.nextId, c.is_sent = false) ∧
    c10OutStore.communications_queue = treeStore.communications_queue ++
      (mkQueueItems 1 (c10Env.decodeNext "r").communications
        treeStore.nextId).map (fun c => { c with is_sent := true }) ∧
    c10OutStore.communications = treeStore.communications ++
      (mkQueueItems 1 (c10Env.decodeNext "r").communications
        treeStore.nextId).map CommQueueItem.toHistory := by
  have hrun : generateNextNode c10Env 1 10 20 none treeStore =
      .ok (c10OutStore, some 101) := by rfl
  exact generateNextNode_comms_delivered c10Env 1 10 20 none treeStore
    c10OutStore (some 101) "r" (by intro c hc; cases hc) (by rfl) hrun

theorem processDecision_existing_child_spec_witness :
    ∃ s', processDecision c4Env 1 10 20 c4Store = .ok (s', some 60) ∧
      s'.llmCalls = c4Store.llmCalls := by
  obtain ⟨s', h1, h2, _⟩ :=
    processDecision_existing_child_spec c4Env 1 10 20 c4Store c4cn c4child
      (by decide) (by rfl) (by rfl)
      (by decide)
      (by intro d2 hd2
          have h11 : d2 = 11 := (Option.some.inj hd2).symm
          omega)
  exact ⟨s', h1, h2⟩

theorem processDecision_preserves_unique_active_witness :
    activeNodeCount c4OutStore 1 ≤ 1 := by
  have hrun : processDecision c4Env 1 10 20 c4Store =
      .ok (c4OutStore, some 60) := by rfl
  exact processDecision_preserves_unique_active c4Env 1 10 20 c4Store
    c4OutStore (some 60) (by decide) (by decide) hrun

end FlightSim
